import Mathlib

/-!
Shallow embedding of the HAR-System Temporal Activity Tracker
(har_system/core/tracker.py) together with theorems settling the
specification claims about it.

Conventions of the embedding:
* Raw observation values (timestamps, bounding-box coordinates, keypoint
  coordinates, confidences) are exact rationals; derived quantities that the
  source computes with a square root (normalized speed, cumulative normalized
  distance) live in the reals.
* Python deques with a maximum length become lists with a bounded append
  (`appendBounded`) that drops the oldest entries beyond the capacity.
* The keypoint dictionary is modelled by the five named joints the tracker
  reads (nose, both ankles, both hips); each is optional, mirroring
  `keypoints.get(name)` returning `None` when absent.
* Fallible helpers (`_calculate_hip_ratio`, `_calculate_pose_height_normalized`)
  return `Option` values exactly where the source returns `None`.
* The `defaultdict` track map becomes an association list: reading a missing
  key inserts a freshly created track, as `self.tracks[track_id]` does.
-/

namespace HAR

/-- Bounding box in the observation coordinate system, as the source's
`bbox` dict with keys xmin/ymin/xmax/ymax. -/
structure Bbox where
  xmin : ℚ
  ymin : ℚ
  xmax : ℚ
  ymax : ℚ

/-- The keypoints the tracker reads from the 17-joint dictionary; each entry
is the (x, y) position when the joint is present. -/
structure Keypoints where
  nose : Option (ℚ × ℚ)
  left_ankle : Option (ℚ × ℚ)
  right_ankle : Option (ℚ × ℚ)
  left_hip : Option (ℚ × ℚ)
  right_hip : Option (ℚ × ℚ)

/-- Keypoint set with no joint available. -/
def noKeypoints : Keypoints := ⟨none, none, none, none, none⟩

/-- One per-frame observation handed to `update` (`frame_data`). -/
structure Obs where
  timestamp : ℚ
  bbox : Bbox
  keypoints : Keypoints
  confidence : ℚ

/-- One recorded activity change (`activity_changes` entries). -/
structure ActivityChange where
  timestamp : ℚ
  fromActivity : String
  toActivity : String

/-- Cumulative per-track statistics (the `stats` sub-dict of a track). -/
structure TrackStats where
  total_distance_norm : ℝ
  frames_stationary : ℕ
  frames_moving : ℕ
  frames_sitting : ℕ
  fall_detected : Bool
  fall_timestamp : Option ℚ
  activity_changes : List ActivityChange

/-- Per-track state (`_create_new_track`). -/
structure Track where
  timestamps : List ℚ
  positions : List (ℚ × ℚ)
  bboxes : List Bbox
  keypoints : List Keypoints
  confidences : List ℚ
  first_seen : Option ℚ
  last_seen : Option ℚ
  is_active : Bool
  total_frames : ℕ
  current_activity : String
  previous_activity : String
  stats : TrackStats

/-- Fresh track record (`_create_new_track`). -/
def newTrack : Track :=
  { timestamps := []
    positions := []
    bboxes := []
    keypoints := []
    confidences := []
    first_seen := none
    last_seen := none
    is_active := true
    total_frames := 0
    current_activity := "unknown"
    previous_activity := "unknown"
    stats :=
      { total_distance_norm := 0
        frames_stationary := 0
        frames_moving := 0
        frames_sitting := 0
        fall_detected := false
        fall_timestamp := none
        activity_changes := [] } }

/-- Threshold configuration (`self.thresholds`), live-mutable in the source. -/
structure Thresholds where
  speed_stationary : ℚ
  speed_slow : ℚ
  speed_fast : ℚ
  hip_ratio_sitting : ℚ
  fall_drop_ratio : ℚ
  fall_time_threshold : ℚ

/-- The default threshold values installed by the constructor. -/
def defaultThresholds : Thresholds :=
  { speed_stationary := 1/10
    speed_slow := 1/2
    speed_fast := 3/2
    hip_ratio_sitting := 62/100
    fall_drop_ratio := 30/100
    fall_time_threshold := 1/2 }

/-- Last `n` elements of a list, as the Python slice `l[-n:]` for `n > 0`. -/
def lastN (n : ℕ) (l : List α) : List α := l.drop (l.length - n)

/-- Append to a deque of maximum length `H`: the new element goes to the
back and entries beyond the capacity fall off the front. -/
def appendBounded (H : ℕ) (l : List α) (a : α) : List α :=
  let l' := l ++ [a]
  l'.drop (l'.length - H)

/-- Arithmetic mean of a list of rationals (`np.mean` on exact values;
zero on the empty list). -/
def mean (l : List ℚ) : ℚ := l.sum / l.length

/-- Center of a bounding box (`_get_bbox_center`). -/
def get_bbox_center (b : Bbox) : ℚ × ℚ := ((b.xmin + b.xmax) / 2, (b.ymin + b.ymax) / 2)

/-- Height of a bounding box (`_get_bbox_height`). -/
def get_bbox_height (b : Bbox) : ℚ := b.ymax - b.ymin

/-- Width of a bounding box (`_get_bbox_width`). -/
def get_bbox_width (b : Bbox) : ℚ := b.xmax - b.xmin

/-- Euclidean distance between two consecutive centers
(`np.sqrt(dx**2 + dy**2)`). -/
noncomputable def stepDistance (p q : ℚ × ℚ) : ℝ :=
  Real.sqrt (((q.1 - p.1 : ℚ) : ℝ) ^ 2 + ((q.2 - p.2 : ℚ) : ℝ) ^ 2)

/-- Total distance traveled along a list of centers: the sum of Euclidean
distances between consecutive entries. -/
noncomputable def totalDistance : List (ℚ × ℚ) → ℝ
  | p :: q :: rest => stepDistance p q + totalDistance (q :: rest)
  | _ => 0

/-- Normalized speed (`_calculate_normalized_speed`): total distance over the
last `min(window, len)` centers, divided by the elapsed time across that
window and by the mean bounding-box height over it; zero when fewer than two
positions exist, when the elapsed time is nonpositive, or when the mean
height is nonpositive. -/
noncomputable def calculate_normalized_speed (positions : List (ℚ × ℚ))
    (timestamps : List ℚ) (bboxes : List Bbox) (window : ℕ) : ℝ :=
  if positions.length < 2 then 0
  else
    let w := min window positions.length
    let recent_positions := lastN w positions
    let recent_timestamps := lastN w timestamps
    let recent_bboxes := lastN w bboxes
    let td := totalDistance recent_positions
    let dt : ℚ := recent_timestamps.getLast?.getD 0 - recent_timestamps.head?.getD 0
    if dt ≤ 0 then 0
    else
      let speed_px := td / (dt : ℝ)
      let avg_height : ℚ := mean (recent_bboxes.map get_bbox_height)
      if avg_height ≤ 0 then 0
      else speed_px / (avg_height : ℝ)

/-- Normalized pose height (`_calculate_pose_height_normalized`): vertical
distance from nose to mean ankle height over bbox height; `none` when the
nose or either ankle is missing or the bbox height is nonpositive. -/
def calculate_pose_height_normalized (kp : Keypoints) (b : Bbox) : Option ℚ :=
  match kp.nose, kp.left_ankle, kp.right_ankle with
  | some nose, some la, some ra =>
      let ankle_y := (la.2 + ra.2) / 2
      let pose_height_px := |ankle_y - nose.2|
      let bbox_height := get_bbox_height b
      if bbox_height ≤ 0 then none
      else some (pose_height_px / bbox_height)
  | _, _, _ => none

/-- Hip position ratio (`_calculate_hip_ratio`): vertical distance from mean
ankle height to mean hip height over bbox height; `none` when any of the
four joints is missing or the bbox height is nonpositive. -/
def calculate_hip_ratio (kp : Keypoints) (b : Bbox) : Option ℚ :=
  match kp.left_hip, kp.right_hip, kp.left_ankle, kp.right_ankle with
  | some lh, some rh, some la, some ra =>
      let hip_y := (lh.2 + rh.2) / 2
      let ankle_y := (la.2 + ra.2) / 2
      let bbox_height := get_bbox_height b
      if bbox_height ≤ 0 then none
      else some ((ankle_y - hip_y) / bbox_height)
  | _, _, _, _ => none

/-- The average hip ratio over the last five history samples: the mean of the
available hip-ratio values, or 1/2 when none of the five yields a value. -/
def avgHipRatio (tr : Track) : ℚ :=
  let hip_ratios :=
    ((lastN 5 tr.keypoints).zip (lastN 5 tr.bboxes)).filterMap fun p =>
      calculate_hip_ratio p.1 p.2
  if hip_ratios = [] then 1/2 else mean hip_ratios

/-- Activity classifier (`_classify_activity_simple`): speed over the last
`window` samples plus the average hip ratio over the last five samples feed
the three rules sitting / stationary / moving. -/
noncomputable def classify_activity_simple (th : Thresholds) (tr : Track)
    (window : ℕ) : String :=
  let speed := calculate_normalized_speed tr.positions tr.timestamps tr.bboxes window
  if tr.keypoints.length = 0 then "unknown"
  else
    let avg_hip_ratio := avgHipRatio tr
    if avg_hip_ratio > th.hip_ratio_sitting ∧ speed < (th.speed_stationary : ℝ) * 1.5 then
      "sitting"
    else if speed < (th.speed_stationary : ℝ) then "stationary"
    else "moving"

/-- Fall detector (`_detect_fall_simple`): over the last `window` history
entries, collect the available normalized pose heights; with at least five of
them, signal a fall when the relative drop from the mean of the first three
to the mean of the last three exceeds the drop threshold within less than the
time threshold. -/
def detect_fall_simple (th : Thresholds) (tr : Track) (window : ℕ) : Bool :=
  if tr.keypoints.length < window then false
  else
    let recent_keypoints := lastN window tr.keypoints
    let recent_bboxes := lastN window tr.bboxes
    let recent_timestamps := lastN window tr.timestamps
    let heights := (recent_keypoints.zip recent_bboxes).filterMap fun p =>
      calculate_pose_height_normalized p.1 p.2
    if heights.length < 5 then false
    else
      let start_height := mean (heights.take 3)
      let end_height := mean (lastN 3 heights)
      let drop_ratio := if start_height > 0 then (start_height - end_height) / start_height else 0
      let dt := recent_timestamps.getLast?.getD 0 - recent_timestamps.head?.getD 0
      decide (drop_ratio > th.fall_drop_ratio ∧ dt < th.fall_time_threshold)

/-- Result of one `update` call on a track, together with the three events
that drive the global counters in the source: a first appearance, a recorded
activity change, and a newly detected fall. -/
structure UpdateResult where
  track : Track
  isNew : Bool
  changed : Bool
  newFall : Bool

/-- Steps 1 and 2 of `update`: record the appearance metadata and append the
raw data of the observation to every history deque. -/
def append_raw (H : ℕ) (tr : Track) (o : Obs) : Track :=
  { tr with
    first_seen := if tr.first_seen.isNone then some o.timestamp else tr.first_seen
    last_seen := some o.timestamp
    total_frames := tr.total_frames + 1
    timestamps := appendBounded H tr.timestamps o.timestamp
    bboxes := appendBounded H tr.bboxes o.bbox
    keypoints := appendBounded H tr.keypoints o.keypoints
    confidences := appendBounded H tr.confidences o.confidence
    positions := appendBounded H tr.positions (get_bbox_center o.bbox) }

/-- Step 3 of `update`: once at least two positions exist, compute the
normalized speed over the last ten samples and accumulate the
stationary/moving frame counters and the cumulative normalized distance. -/
noncomputable def accumulate_speed_stats (th : Thresholds) (tr : Track) : Track :=
  if 2 ≤ tr.positions.length then
    let speed_norm := calculate_normalized_speed tr.positions tr.timestamps tr.bboxes 10
    if speed_norm < (th.speed_stationary : ℝ) then
      { tr with stats := { tr.stats with frames_stationary := tr.stats.frames_stationary + 1 } }
    else
      { tr with stats :=
        { tr.stats with
          frames_moving := tr.stats.frames_moving + 1
          total_distance_norm := tr.stats.total_distance_norm + speed_norm } }
  else tr

/-- Step 4 of `update`: once at least ten positions exist, shift the current
activity into the previous one, classify, record a change event when both
labels are concrete and differ, and count sitting-classified frames.  The
boolean reports whether a change event was recorded. -/
noncomputable def classify_step (th : Thresholds) (tr : Track) (ts : ℚ) :
    Track × Bool :=
  if 10 ≤ tr.positions.length then
    let prev := tr.current_activity
    let curr := classify_activity_simple th tr 30
    let ta : Track := { tr with previous_activity := prev, current_activity := curr }
    let changed := prev ≠ "unknown" ∧ curr ≠ prev
    let tb : Track :=
      if changed then
        { ta with stats :=
          { ta.stats with activity_changes :=
            ta.stats.activity_changes ++ [⟨ts, prev, curr⟩] } }
      else ta
    let tc : Track :=
      if curr = "sitting" then
        { tb with stats := { tb.stats with frames_sitting := tb.stats.frames_sitting + 1 } }
      else tb
    (tc, decide changed)
  else (tr, false)

/-- Step 5 of `update`: once at least fifteen keypoint entries exist, run the
fall detector and latch a first fall with its timestamp.  The boolean reports
whether a new fall was recorded. -/
noncomputable def fall_step (th : Thresholds) (tr : Track) (ts : ℚ) : Track × Bool :=
  if 15 ≤ tr.keypoints.length then
    if detect_fall_simple th tr 15 then
      if tr.stats.fall_detected then (tr, false)
      else
        ({ tr with stats :=
           { tr.stats with fall_detected := true, fall_timestamp := some ts } }, true)
    else (tr, false)
  else (tr, false)

/-- The per-track body of `update`, given the history capacity `H` and the
live thresholds: the five numbered steps of the source in order. -/
noncomputable def update_track_full (H : ℕ) (th : Thresholds) (tr : Track)
    (o : Obs) : UpdateResult :=
  let isNew := tr.first_seen.isNone
  let t2 := accumulate_speed_stats th (append_raw H tr o)
  let classified := classify_step th t2 o.timestamp
  let fallen := fall_step th classified.1 o.timestamp
  ⟨fallen.1, isNew, classified.2, fallen.2⟩

/-- The track reached by one `update` call. -/
noncomputable def update_track (H : ℕ) (th : Thresholds) (tr : Track) (o : Obs) : Track :=
  (update_track_full H th tr o).track

/-- The track reached from the track `tr` by a sequence of `update` calls. -/
noncomputable def run_track_from (H : ℕ) (th : Thresholds) (tr : Track) (l : List Obs) : Track :=
  l.foldl (update_track H th) tr

/-- The track reached from a fresh track by a sequence of `update` calls. -/
noncomputable def run_track (H : ℕ) (th : Thresholds) (l : List Obs) : Track :=
  run_track_from H th newTrack l

/-- Number of times a sequence of `update` calls starting from `tr` bumps the
global fall counter, i.e. reports a newly detected fall. -/
noncomputable def fall_increments (H : ℕ) (th : Thresholds) : Track → List Obs → ℕ
  | _, [] => 0
  | tr, o :: rest =>
      (if (update_track_full H th tr o).newFall then 1 else 0)
        + fall_increments H th (update_track H th tr o) rest

/-- Global run-wide counters (`self.global_stats`). -/
structure GlobalStats where
  total_tracks_seen : ℕ
  active_tracks : ℕ
  total_falls_detected : ℕ
  total_activity_changes : ℕ

/-- The whole tracker (`TemporalActivityTracker`): the history capacity, the
live thresholds, the track map in insertion order, and the global counters. -/
structure Store where
  history_frames : ℕ
  thresholds : Thresholds
  tracks : List (ℕ × Track)
  global_stats : GlobalStats

/-- A freshly constructed tracker with capacity `H` and thresholds `th`. -/
def newStore (H : ℕ) (th : Thresholds) : Store :=
  { history_frames := H, thresholds := th, tracks := [], global_stats := ⟨0, 0, 0, 0⟩ }

/-- Reading `self.tracks[track_id]` on the `defaultdict`: the stored track
when present; otherwise a fresh track is created, inserted, and returned. -/
def getTrack (s : Store) (id : ℕ) : Track × Store :=
  match s.tracks.lookup id with
  | some tr => (tr, s)
  | none => (newTrack, { s with tracks := s.tracks ++ [(id, newTrack)] })

/-- Replace the binding of `id` in the track map, keeping insertion order. -/
def setTrack (tracks : List (ℕ × Track)) (id : ℕ) (tr : Track) : List (ℕ × Track) :=
  tracks.map fun p => if p.1 = id then (p.1, tr) else p

/-- The store-level `update`: look up (or lazily create) the track, run the
per-track update, bump the global counters for each event, store the new
track state, and return the current activity label. -/
noncomputable def update (s : Store) (id : ℕ) (o : Obs) : Store × String :=
  let fetched := getTrack s id
  let r := update_track_full s.history_frames s.thresholds fetched.1 o
  let gs := fetched.2.global_stats
  let gs' : GlobalStats :=
    { total_tracks_seen := gs.total_tracks_seen + (if r.isNew then 1 else 0)
      active_tracks := gs.active_tracks + (if r.isNew then 1 else 0)
      total_falls_detected := gs.total_falls_detected + (if r.newFall then 1 else 0)
      total_activity_changes := gs.total_activity_changes + (if r.changed then 1 else 0) }
  ({ fetched.2 with tracks := setTrack fetched.2.tracks id r.track, global_stats := gs' },
   r.track.current_activity)

/-- The store reached by a sequence of `update` calls for one `track_id`. -/
noncomputable def run_store (s : Store) (id : ℕ) (l : List Obs) : Store :=
  l.foldl (fun s o => (update s id o).1) s

/-- The change event returned by `detect_activity_change`. -/
structure ChangeEvent where
  track_id : ℕ
  fromActivity : String
  toActivity : String
  timestamp : Option ℚ

/-- The summary returned by `get_summary`. -/
structure Summary where
  track_id : ℕ
  duration_seconds : ℚ
  total_frames : ℕ
  current_activity : String
  total_distance_normalized : ℝ
  percent_moving : ℚ
  percent_stationary : ℚ
  percent_sitting : ℚ
  fall_detected : Bool
  fall_timestamp : Option ℚ
  total_activity_changes : ℕ
  activity_history : List ActivityChange

/-- The summary record built from a track (`get_summary` body after the
`first_seen` guard). -/
def summarize (id : ℕ) (tr : Track) : Summary :=
  { track_id := id
    duration_seconds := tr.last_seen.getD 0 - tr.first_seen.getD 0
    total_frames := tr.total_frames
    current_activity := tr.current_activity
    total_distance_normalized := tr.stats.total_distance_norm
    percent_moving :=
      if 0 < tr.total_frames then (tr.stats.frames_moving : ℚ) / tr.total_frames * 100 else 0
    percent_stationary :=
      if 0 < tr.total_frames then (tr.stats.frames_stationary : ℚ) / tr.total_frames * 100 else 0
    percent_sitting :=
      if 0 < tr.total_frames then (tr.stats.frames_sitting : ℚ) / tr.total_frames * 100 else 0
    fall_detected := tr.stats.fall_detected
    fall_timestamp := tr.stats.fall_timestamp
    total_activity_changes := tr.stats.activity_changes.length
    activity_history := lastN 5 tr.stats.activity_changes }

/-- Summary query (`get_summary`): `None` when the track has never been observed, otherwise
a snapshot of its statistics.  Reading the `defaultdict` inserts a fresh
track when the id is absent, so the resulting store is returned as well. -/
def get_summary (s : Store) (id : ℕ) : Option Summary × Store :=
  let fetched := getTrack s id
  if fetched.1.first_seen.isNone then (none, fetched.2)
  else (some (summarize id fetched.1), fetched.2)

/-- Change query (`detect_activity_change`): the most recent transition when the current
and previous activities differ and the previous one is concrete; `None`
otherwise.  Reading the `defaultdict` inserts a fresh track when the id is
absent, so the resulting store is returned as well. -/
def detect_activity_change (s : Store) (id : ℕ) : Option ChangeEvent × Store :=
  let fetched := getTrack s id
  let tr := fetched.1
  if tr.current_activity ≠ tr.previous_activity ∧ tr.previous_activity ≠ "unknown" then
    (some ⟨id, tr.previous_activity, tr.current_activity, tr.last_seen⟩, fetched.2)
  else (none, fetched.2)

/-- The exported snapshot returned by `export_track_data`. -/
structure ExportData where
  track_id : ℕ
  first_seen : Option ℚ
  last_seen : Option ℚ
  total_frames : ℕ
  duration_seconds : ℚ
  activity : String
  last_position : Option (ℚ × ℚ)
  last_bbox : Option Bbox
  statistics : TrackStats
  timestamps : List ℚ
  positions : List (ℚ × ℚ)

/-- Export query (`export_track_data`): `None` (the empty dict) when the track has never
been observed, otherwise the full snapshot.  Reading the `defaultdict`
inserts a fresh track when the id is absent, so the resulting store is
returned as well. -/
def export_track_data (s : Store) (id : ℕ) : Option ExportData × Store :=
  let fetched := getTrack s id
  let tr := fetched.1
  if tr.first_seen.isNone then (none, fetched.2)
  else
    (some
      { track_id := id
        first_seen := tr.first_seen
        last_seen := tr.last_seen
        total_frames := tr.total_frames
        duration_seconds := tr.last_seen.getD 0 - tr.first_seen.getD 0
        activity := tr.current_activity
        last_position := tr.positions.getLast?
        last_bbox := tr.bboxes.getLast?
        statistics := tr.stats
        timestamps := tr.timestamps
        positions := tr.positions }, fetched.2)

/-! Concrete inputs used to exercise the tracker in witnesses and
counterexamples. -/

/-- Unit bounding box centered at (1/2, 1/2). -/
def unitBox : Bbox := ⟨0, 0, 1, 1⟩

/-- Bounding box of the same size shifted ten units down, centered at
(1/2, 21/2). -/
def jumpBox : Bbox := ⟨0, 10, 1, 11⟩

/-- A stationary observation at time 0 with no keypoints. -/
def obsStay : Obs := ⟨0, unitBox, noKeypoints, 1⟩

/-- An observation at time 1 whose bbox center jumped ten units down. -/
def obsJump : Obs := ⟨1, jumpBox, noKeypoints, 1⟩

/-- Ten stationary observations followed by the jump: the eleventh update
turns a stationary track into a moving one. -/
def demoObs : List Obs := List.replicate 10 obsStay ++ [obsJump]

/-- The store reached by feeding `demoObs` for track id 7 into a freshly
constructed tracker. -/
noncomputable def demoStore : Store := run_store (newStore 45 defaultThresholds) 7 demoObs

/-- The expected track state after `n ≤ 45` stationary observations. -/
def stayTrack (n : ℕ) : Track :=
  { timestamps := List.replicate n 0
    positions := List.replicate n (1/2, 1/2)
    bboxes := List.replicate n unitBox
    keypoints := List.replicate n noKeypoints
    confidences := List.replicate n 1
    first_seen := if n = 0 then none else some 0
    last_seen := if n = 0 then none else some 0
    is_active := true
    total_frames := n
    current_activity := if n < 10 then "unknown" else "stationary"
    previous_activity := if n < 11 then "unknown" else "stationary"
    stats :=
      { total_distance_norm := 0
        frames_stationary := n - 1
        frames_moving := 0
        frames_sitting := 0
        fall_detected := false
        fall_timestamp := none
        activity_changes := [] } }

/-- The expected track state after ten stationary observations and the jump:
a recorded transition from stationary to moving. -/
noncomputable def jumpTrack : Track :=
  { timestamps := List.replicate 10 0 ++ [1]
    positions := List.replicate 10 (1/2, 1/2) ++ [(1/2, 21/2)]
    bboxes := List.replicate 10 unitBox ++ [jumpBox]
    keypoints := List.replicate 10 noKeypoints ++ [noKeypoints]
    confidences := List.replicate 10 1 ++ [1]
    first_seen := some 0
    last_seen := some 1
    is_active := true
    total_frames := 11
    current_activity := "moving"
    previous_activity := "stationary"
    stats :=
      { total_distance_norm := 10
        frames_stationary := 9
        frames_moving := 1
        frames_sitting := 0
        fall_detected := false
        fall_timestamp := none
        activity_changes := [⟨1, "stationary", "moving"⟩] } }

/-- A track already labelled moving, used to exercise preservation lemmas. -/
def movTrack : Track := { newTrack with current_activity := "moving" }

/-- Keypoints of a seated pose: hips at height 33/100, ankles at height 1 in
a unit box, giving hip ratio 67/100. -/
def sitKeypoints : Keypoints :=
  { nose := none
    left_ankle := some (0, 1)
    right_ankle := some (0, 1)
    left_hip := some (0, 33/100)
    right_hip := some (0, 33/100) }

/-- A seated observation at time 0. -/
def obsSit : Obs := ⟨0, unitBox, sitKeypoints, 1⟩

/-- A track with nine seated observations already recorded; the tenth update
classifies it as sitting. -/
def sitTrack : Track :=
  { newTrack with
    timestamps := List.replicate 9 0
    positions := List.replicate 9 (1/2, 1/2)
    bboxes := List.replicate 9 unitBox
    keypoints := List.replicate 9 sitKeypoints
    confidences := List.replicate 9 1
    first_seen := some 0
    last_seen := some 0
    total_frames := 9 }

/-- A track whose fall flag is already latched with timestamp 3. -/
def fallTrack : Track :=
  { newTrack with stats :=
    { newTrack.stats with fall_detected := true, fall_timestamp := some 3 } }

/-- A track with ten keypoint-history entries and nothing else. -/
def c1Track : Track := { newTrack with keypoints := List.replicate 10 noKeypoints }

/-- A store that already holds a binding for track id 3. -/
def presentStore : Store := { newStore 45 defaultThresholds with tracks := [(3, newTrack)] }

/-- Doubling of a stored center position. -/
def scalePoint (p : ℚ × ℚ) : ℚ × ℚ := (2 * p.1, 2 * p.2)

/-- Doubling of every coordinate of a bounding box. -/
def scaleBbox (b : Bbox) : Bbox := ⟨2 * b.xmin, 2 * b.ymin, 2 * b.xmax, 2 * b.ymax⟩

/-! Basic facts about the bounded history container and the update stages. -/

theorem appendBounded_length (H : ℕ) (l : List α) (a : α) :
    (appendBounded H l a).length = min (l.length + 1) H := by
  simp only [appendBounded, List.length_drop, List.length_append, List.length_singleton]
  omega

theorem lastN_length (n : ℕ) (l : List α) : (lastN n l).length = min n l.length := by
  simp only [lastN, List.length_drop]
  omega

theorem run_track_nil (H : ℕ) (th : Thresholds) : run_track H th [] = newTrack := rfl

theorem run_track_snoc (H : ℕ) (th : Thresholds) (l : List Obs) (o : Obs) :
    run_track H th (l ++ [o]) = update_track H th (run_track H th l) o := by
  simp [run_track, run_track_from, List.foldl_append]

theorem accumulate_speed_stats_positions (th : Thresholds) (tr : Track) :
    (accumulate_speed_stats th tr).positions = tr.positions := by
  unfold accumulate_speed_stats
  dsimp only
  split <;> [split <;> rfl; rfl]

theorem accumulate_speed_stats_keypoints (th : Thresholds) (tr : Track) :
    (accumulate_speed_stats th tr).keypoints = tr.keypoints := by
  unfold accumulate_speed_stats
  dsimp only
  split <;> [split <;> rfl; rfl]

theorem accumulate_speed_stats_timestamps (th : Thresholds) (tr : Track) :
    (accumulate_speed_stats th tr).timestamps = tr.timestamps := by
  unfold accumulate_speed_stats
  dsimp only
  split <;> [split <;> rfl; rfl]

theorem accumulate_speed_stats_bboxes (th : Thresholds) (tr : Track) :
    (accumulate_speed_stats th tr).bboxes = tr.bboxes := by
  unfold accumulate_speed_stats
  dsimp only
  split <;> [split <;> rfl; rfl]

theorem accumulate_speed_stats_current (th : Thresholds) (tr : Track) :
    (accumulate_speed_stats th tr).current_activity = tr.current_activity := by
  unfold accumulate_speed_stats
  dsimp only
  split <;> [split <;> rfl; rfl]

theorem accumulate_speed_stats_previous (th : Thresholds) (tr : Track) :
    (accumulate_speed_stats th tr).previous_activity = tr.previous_activity := by
  unfold accumulate_speed_stats
  dsimp only
  split <;> [split <;> rfl; rfl]

theorem accumulate_speed_stats_total_frames (th : Thresholds) (tr : Track) :
    (accumulate_speed_stats th tr).total_frames = tr.total_frames := by
  unfold accumulate_speed_stats
  dsimp only
  split <;> [split <;> rfl; rfl]

theorem accumulate_speed_stats_fall (th : Thresholds) (tr : Track) :
    (accumulate_speed_stats th tr).stats.fall_detected = tr.stats.fall_detected := by
  unfold accumulate_speed_stats
  dsimp only
  split <;> [split <;> rfl; rfl]

theorem accumulate_speed_stats_fall_timestamp (th : Thresholds) (tr : Track) :
    (accumulate_speed_stats th tr).stats.fall_timestamp = tr.stats.fall_timestamp := by
  unfold accumulate_speed_stats
  dsimp only
  split <;> [split <;> rfl; rfl]

theorem accumulate_speed_stats_sitting (th : Thresholds) (tr : Track) :
    (accumulate_speed_stats th tr).stats.frames_sitting = tr.stats.frames_sitting := by
  unfold accumulate_speed_stats
  dsimp only
  split <;> [split <;> rfl; rfl]

theorem accumulate_speed_stats_sum (th : Thresholds) (tr : Track) :
    (accumulate_speed_stats th tr).stats.frames_stationary
      + (accumulate_speed_stats th tr).stats.frames_moving
    = tr.stats.frames_stationary + tr.stats.frames_moving
      + (if 2 ≤ tr.positions.length then 1 else 0) := by
  unfold accumulate_speed_stats
  dsimp only
  split <;> [split <;> simp <;> omega; simp]

theorem classify_step_fst_positions (th : Thresholds) (tr : Track) (ts : ℚ) :
    (classify_step th tr ts).1.positions = tr.positions := by
  unfold classify_step
  dsimp only
  split <;> [split <;> split <;> rfl; rfl]

theorem classify_step_fst_keypoints (th : Thresholds) (tr : Track) (ts : ℚ) :
    (classify_step th tr ts).1.keypoints = tr.keypoints := by
  unfold classify_step
  dsimp only
  split <;> [split <;> split <;> rfl; rfl]

theorem classify_step_fst_total_frames (th : Thresholds) (tr : Track) (ts : ℚ) :
    (classify_step th tr ts).1.total_frames = tr.total_frames := by
  unfold classify_step
  dsimp only
  split <;> [split <;> split <;> rfl; rfl]

theorem classify_step_fst_fall (th : Thresholds) (tr : Track) (ts : ℚ) :
    (classify_step th tr ts).1.stats.fall_detected = tr.stats.fall_detected := by
  unfold classify_step
  dsimp only
  split <;> [split <;> split <;> rfl; rfl]

theorem classify_step_fst_fall_timestamp (th : Thresholds) (tr : Track) (ts : ℚ) :
    (classify_step th tr ts).1.stats.fall_timestamp = tr.stats.fall_timestamp := by
  unfold classify_step
  dsimp only
  split <;> [split <;> split <;> rfl; rfl]

theorem classify_step_fst_stationary (th : Thresholds) (tr : Track) (ts : ℚ) :
    (classify_step th tr ts).1.stats.frames_stationary = tr.stats.frames_stationary := by
  unfold classify_step
  dsimp only
  split <;> [split <;> split <;> rfl; rfl]

theorem classify_step_fst_moving (th : Thresholds) (tr : Track) (ts : ℚ) :
    (classify_step th tr ts).1.stats.frames_moving = tr.stats.frames_moving := by
  unfold classify_step
  dsimp only
  split <;> [split <;> split <;> rfl; rfl]

theorem classify_step_fst_current (th : Thresholds) (tr : Track) (ts : ℚ) :
    (classify_step th tr ts).1.current_activity =
      if 10 ≤ tr.positions.length then classify_activity_simple th tr 30
      else tr.current_activity := by
  unfold classify_step
  dsimp only
  split <;> [split <;> split <;> rfl; rfl]

theorem classify_step_fst_previous (th : Thresholds) (tr : Track) (ts : ℚ) :
    (classify_step th tr ts).1.previous_activity =
      if 10 ≤ tr.positions.length then tr.current_activity
      else tr.previous_activity := by
  unfold classify_step
  dsimp only
  split <;> [split <;> split <;> rfl; rfl]

theorem classify_step_fst_sitting (th : Thresholds) (tr : Track) (ts : ℚ) :
    (classify_step th tr ts).1.stats.frames_sitting =
      if 10 ≤ tr.positions.length ∧ classify_activity_simple th tr 30 = "sitting"
      then tr.stats.frames_sitting + 1 else tr.stats.frames_sitting := by
  unfold classify_step
  dsimp only
  split_ifs <;> simp_all

theorem fall_step_fst_current (th : Thresholds) (tr : Track) (ts : ℚ) :
    (fall_step th tr ts).1.current_activity = tr.current_activity := by
  unfold fall_step
  dsimp only
  split <;> [split <;> [split <;> rfl; rfl]; rfl]

theorem fall_step_fst_previous (th : Thresholds) (tr : Track) (ts : ℚ) :
    (fall_step th tr ts).1.previous_activity = tr.previous_activity := by
  unfold fall_step
  dsimp only
  split <;> [split <;> [split <;> rfl; rfl]; rfl]

theorem fall_step_fst_positions (th : Thresholds) (tr : Track) (ts : ℚ) :
    (fall_step th tr ts).1.positions = tr.positions := by
  unfold fall_step
  dsimp only
  split <;> [split <;> [split <;> rfl; rfl]; rfl]

theorem fall_step_fst_keypoints (th : Thresholds) (tr : Track) (ts : ℚ) :
    (fall_step th tr ts).1.keypoints = tr.keypoints := by
  unfold fall_step
  dsimp only
  split <;> [split <;> [split <;> rfl; rfl]; rfl]

theorem fall_step_fst_total_frames (th : Thresholds) (tr : Track) (ts : ℚ) :
    (fall_step th tr ts).1.total_frames = tr.total_frames := by
  unfold fall_step
  dsimp only
  split <;> [split <;> [split <;> rfl; rfl]; rfl]

theorem fall_step_fst_stationary (th : Thresholds) (tr : Track) (ts : ℚ) :
    (fall_step th tr ts).1.stats.frames_stationary = tr.stats.frames_stationary := by
  unfold fall_step
  dsimp only
  split <;> [split <;> [split <;> rfl; rfl]; rfl]

theorem fall_step_fst_moving (th : Thresholds) (tr : Track) (ts : ℚ) :
    (fall_step th tr ts).1.stats.frames_moving = tr.stats.frames_moving := by
  unfold fall_step
  dsimp only
  split <;> [split <;> [split <;> rfl; rfl]; rfl]

theorem fall_step_fst_sitting (th : Thresholds) (tr : Track) (ts : ℚ) :
    (fall_step th tr ts).1.stats.frames_sitting = tr.stats.frames_sitting := by
  unfold fall_step
  dsimp only
  split <;> [split <;> [split <;> rfl; rfl]; rfl]

theorem fall_step_of_fallen (th : Thresholds) (tr : Track) (ts : ℚ)
    (h : tr.stats.fall_detected = true) : fall_step th tr ts = (tr, false) := by
  unfold fall_step
  dsimp only
  split <;> [split <;> [simp [h]; rfl]; rfl]

theorem fall_step_fall_eq (th : Thresholds) (tr : Track) (ts : ℚ) :
    (fall_step th tr ts).1.stats.fall_detected
      = (tr.stats.fall_detected || (fall_step th tr ts).2) := by
  unfold fall_step
  dsimp only
  split <;> [split <;> [split <;> simp_all; simp]; simp]

theorem fall_step_fall_timestamp (th : Thresholds) (tr : Track) (ts : ℚ)
    (h : tr.stats.fall_detected = true) :
    (fall_step th tr ts).1.stats.fall_timestamp = tr.stats.fall_timestamp := by
  rw [fall_step_of_fallen th tr ts h]

theorem fall_step_snd_imp (th : Thresholds) (tr : Track) (ts : ℚ)
    (h : (fall_step th tr ts).2 = true) : tr.stats.fall_detected = false := by
  by_contra hc
  rw [fall_step_of_fallen th tr ts (by revert hc; cases tr.stats.fall_detected <;> simp)] at h
  exact Bool.false_ne_true h

/-- The classifier only reads the four history lists, so it is unchanged by
modifications to the other fields of a track. -/
theorem classify_activity_simple_congr (th : Thresholds) (t t' : Track) (w : ℕ)
    (hp : t'.positions = t.positions) (ht : t'.timestamps = t.timestamps)
    (hb : t'.bboxes = t.bboxes) (hk : t'.keypoints = t.keypoints) :
    classify_activity_simple th t' w = classify_activity_simple th t w := by
  unfold classify_activity_simple avgHipRatio
  rw [hp, ht, hb, hk]

/-! Facts about one whole `update` call on a track. -/

theorem update_track_eq (H : ℕ) (th : Thresholds) (tr : Track) (o : Obs) :
    update_track H th tr o =
      (fall_step th
        (classify_step th (accumulate_speed_stats th (append_raw H tr o)) o.timestamp).1
        o.timestamp).1 := rfl

theorem update_track_full_track (H : ℕ) (th : Thresholds) (tr : Track) (o : Obs) :
    (update_track_full H th tr o).track = update_track H th tr o := rfl

theorem update_track_full_newFall (H : ℕ) (th : Thresholds) (tr : Track) (o : Obs) :
    (update_track_full H th tr o).newFall =
      (fall_step th
        (classify_step th (accumulate_speed_stats th (append_raw H tr o)) o.timestamp).1
        o.timestamp).2 := rfl

theorem update_track_positions (H : ℕ) (th : Thresholds) (tr : Track) (o : Obs) :
    (update_track H th tr o).positions
      = appendBounded H tr.positions (get_bbox_center o.bbox) := by
  rw [update_track_eq, fall_step_fst_positions, classify_step_fst_positions,
    accumulate_speed_stats_positions]
  rfl

theorem update_track_keypoints (H : ℕ) (th : Thresholds) (tr : Track) (o : Obs) :
    (update_track H th tr o).keypoints
      = appendBounded H tr.keypoints o.keypoints := by
  rw [update_track_eq, fall_step_fst_keypoints, classify_step_fst_keypoints,
    accumulate_speed_stats_keypoints]
  rfl

theorem update_track_total_frames (H : ℕ) (th : Thresholds) (tr : Track) (o : Obs) :
    (update_track H th tr o).total_frames = tr.total_frames + 1 := by
  rw [update_track_eq, fall_step_fst_total_frames, classify_step_fst_total_frames,
    accumulate_speed_stats_total_frames]
  rfl

theorem update_track_current (H : ℕ) (th : Thresholds) (tr : Track) (o : Obs) :
    (update_track H th tr o).current_activity =
      if 10 ≤ (appendBounded H tr.positions (get_bbox_center o.bbox)).length then
        classify_activity_simple th (accumulate_speed_stats th (append_raw H tr o)) 30
      else tr.current_activity := by
  rw [update_track_eq, fall_step_fst_current, classify_step_fst_current,
    accumulate_speed_stats_positions, accumulate_speed_stats_current]
  rfl

theorem update_track_previous (H : ℕ) (th : Thresholds) (tr : Track) (o : Obs) :
    (update_track H th tr o).previous_activity =
      if 10 ≤ (appendBounded H tr.positions (get_bbox_center o.bbox)).length then
        tr.current_activity
      else tr.previous_activity := by
  rw [update_track_eq, fall_step_fst_previous, classify_step_fst_previous,
    accumulate_speed_stats_positions, accumulate_speed_stats_current,
    accumulate_speed_stats_previous]
  rfl

theorem update_track_fall (H : ℕ) (th : Thresholds) (tr : Track) (o : Obs) :
    (update_track H th tr o).stats.fall_detected
      = (tr.stats.fall_detected || (update_track_full H th tr o).newFall) := by
  rw [update_track_eq, update_track_full_newFall, fall_step_fall_eq,
    classify_step_fst_fall, accumulate_speed_stats_fall]
  rfl

theorem update_track_sum (H : ℕ) (th : Thresholds) (tr : Track) (o : Obs) :
    (update_track H th tr o).stats.frames_stationary
      + (update_track H th tr o).stats.frames_moving
    = tr.stats.frames_stationary + tr.stats.frames_moving
      + (if 2 ≤ (appendBounded H tr.positions (get_bbox_center o.bbox)).length then 1
         else 0) := by
  rw [update_track_eq, fall_step_fst_stationary, fall_step_fst_moving]
  have hs := classify_step_fst_stationary th (accumulate_speed_stats th (append_raw H tr o)) o.timestamp
  have hm := classify_step_fst_moving th (accumulate_speed_stats th (append_raw H tr o)) o.timestamp
  rw [hs, hm]
  have := accumulate_speed_stats_sum th (append_raw H tr o)
  rw [this]
  rfl

theorem update_track_sitting (H : ℕ) (th : Thresholds) (tr : Track) (o : Obs) :
    (update_track H th tr o).stats.frames_sitting =
      if 10 ≤ (appendBounded H tr.positions (get_bbox_center o.bbox)).length ∧
          classify_activity_simple th (accumulate_speed_stats th (append_raw H tr o)) 30
            = "sitting"
      then tr.stats.frames_sitting + 1 else tr.stats.frames_sitting := by
  rw [update_track_eq, fall_step_fst_sitting, classify_step_fst_sitting,
    accumulate_speed_stats_positions, accumulate_speed_stats_sitting]
  rfl

theorem run_track_from_cons (H : ℕ) (th : Thresholds) (tr : Track) (o : Obs) (l : List Obs) :
    run_track_from H th tr (o :: l) = run_track_from H th (update_track H th tr o) l := rfl

theorem run_track_positions_length (H : ℕ) (th : Thresholds) (l : List Obs) :
    (run_track H th l).positions.length = min l.length H := by
  induction l using List.reverseRecOn with
  | nil => simp [run_track_nil, newTrack]
  | append_singleton l o ih =>
      rw [run_track_snoc, update_track_positions, appendBounded_length, ih]
      simp
      omega

/-- With at least one keypoint entry in the history, the classifier always
returns one of the three concrete labels, never `unknown`. -/
theorem classify_ne_unknown (th : Thresholds) (t : Track) (w : ℕ)
    (h : t.keypoints.length ≠ 0) : classify_activity_simple th t w ≠ "unknown" := by
  unfold classify_activity_simple
  dsimp only
  rw [if_neg h]
  split_ifs <;> decide

theorem update_track_ne_unknown (H : ℕ) (th : Thresholds) (tr : Track) (o : Obs)
    (h : tr.current_activity ≠ "unknown") :
    (update_track H th tr o).current_activity ≠ "unknown" := by
  rw [update_track_current]
  split
  · rename_i hlen
    apply classify_ne_unknown
    rw [accumulate_speed_stats_keypoints]
    show (appendBounded H tr.keypoints o.keypoints).length ≠ 0
    rw [appendBounded_length]
    rw [appendBounded_length] at hlen
    omega
  · exact h

theorem update_track_sticky (H : ℕ) (th : Thresholds) (tr : Track) (o : Obs)
    (h : tr.stats.fall_detected = true) :
    (update_track H th tr o).stats.fall_detected = true ∧
    (update_track H th tr o).stats.fall_timestamp = tr.stats.fall_timestamp := by
  have h3 : (classify_step th (accumulate_speed_stats th (append_raw H tr o))
      o.timestamp).1.stats.fall_detected = true := by
    rw [classify_step_fst_fall, accumulate_speed_stats_fall]
    exact h
  constructor
  · rw [update_track_eq, fall_step_of_fallen _ _ _ h3]
    exact h3
  · rw [update_track_eq, fall_step_of_fallen _ _ _ h3, classify_step_fst_fall_timestamp,
      accumulate_speed_stats_fall_timestamp]
    rfl

theorem run_track_from_sticky (H : ℕ) (th : Thresholds) :
    ∀ (l : List Obs) (tr : Track), tr.stats.fall_detected = true →
      (run_track_from H th tr l).stats.fall_detected = true := by
  intro l
  induction l with
  | nil => exact fun tr h => h
  | cons o rest ih =>
      intro tr h
      rw [run_track_from_cons]
      exact ih _ (update_track_sticky H th tr o h).1

theorem fall_increments_eq (H : ℕ) (th : Thresholds) :
    ∀ (l : List Obs) (tr : Track),
      fall_increments H th tr l =
        if (run_track_from H th tr l).stats.fall_detected = true ∧
            tr.stats.fall_detected = false then 1 else 0 := by
  intro l
  induction l with
  | nil =>
      intro tr
      show 0 = _
      cases h : tr.stats.fall_detected <;> simp [run_track_from, h]
  | cons o rest ih =>
      intro tr
      show (if (update_track_full H th tr o).newFall then 1 else 0)
          + fall_increments H th (update_track H th tr o) rest = _
      rw [ih, run_track_from_cons]
      have hfall := update_track_fall H th tr o
      cases hf : tr.stats.fall_detected
      · cases hnf : (update_track_full H th tr o).newFall
        · have h0 : (update_track H th tr o).stats.fall_detected = false := by
            rw [hfall, hf, hnf]
            rfl
          simp [hnf, h0, hf]
        · have h1 : (update_track H th tr o).stats.fall_detected = true := by
            rw [hfall, hf, hnf]
            rfl
          have h2 := run_track_from_sticky H th rest _ h1
          simp [hnf, h1, h2, hf]
      · have hnf : (update_track_full H th tr o).newFall = false := by
          cases hnf : (update_track_full H th tr o).newFall
          · rfl
          · have hsnd : (fall_step th
                (classify_step th (accumulate_speed_stats th (append_raw H tr o))
                  o.timestamp).1 o.timestamp).2 = true := by
              rw [← update_track_full_newFall]
              exact hnf
            have := fall_step_snd_imp th _ _ hsnd
            rw [classify_step_fst_fall, accumulate_speed_stats_fall] at this
            have h4 : tr.stats.fall_detected = false := this
            rw [hf] at h4
            exact absurd h4 (by simp)
        have h1 : (update_track H th tr o).stats.fall_detected = true := by
          rw [hfall, hf]
          simp
        simp [hnf, h1, hf]

theorem getTrack_snd_global (s : Store) (id : ℕ) :
    (getTrack s id).2.global_stats = s.global_stats := by
  unfold getTrack
  split <;> rfl

/-- C3: the current activity is `unknown` while the history holds fewer than
ten entries, and once it has become concrete no update ever returns it to
`unknown`. -/
theorem unknown_until_ten_then_never (H : ℕ) (th : Thresholds) :
    (∀ l : List Obs, (run_track H th l).positions.length < 10 →
        (run_track H th l).current_activity = "unknown") ∧
    (∀ (tr : Track) (o : Obs), tr.current_activity ≠ "unknown" →
        (update_track H th tr o).current_activity ≠ "unknown") := by
  constructor
  · intro l
    induction l using List.reverseRecOn with
    | nil => exact fun _ => rfl
    | append_singleton l o ih =>
        intro h
        rw [run_track_snoc] at h ⊢
        rw [update_track_positions, appendBounded_length] at h
        rw [update_track_current, appendBounded_length, if_neg (by omega)]
        apply ih
        rw [run_track_positions_length] at h ⊢
        omega
  · exact fun tr o h => update_track_ne_unknown H th tr o h

/-- C9: every update call increases the per-track total frame counter by
exactly one, so after a run of n updates it equals n, independent of any
history truncation. -/
theorem total_frames_counts_updates (H : ℕ) (th : Thresholds) :
    (∀ (tr : Track) (o : Obs),
        (update_track H th tr o).total_frames = tr.total_frames + 1) ∧
    (∀ l : List Obs, (run_track H th l).total_frames = l.length) := by
  refine ⟨fun tr o => update_track_total_frames H th tr o, ?_⟩
  intro l
  induction l using List.reverseRecOn with
  | nil => rfl
  | append_singleton l o ih =>
      rw [run_track_snoc, update_track_total_frames, ih]
      simp

/-- C8: the fall flag is sticky with a frozen timestamp, summaries report
exactly the stored flag, a whole run records at most one — and exactly one
when the final state is fallen — fall increment, and the store-level update
adds exactly that increment to the global fall counter. -/
theorem fall_flag_sticky (H : ℕ) (th : Thresholds) :
    (∀ (tr : Track) (o : Obs), tr.stats.fall_detected = true →
        (update_track H th tr o).stats.fall_detected = true ∧
        (update_track H th tr o).stats.fall_timestamp = tr.stats.fall_timestamp) ∧
    (∀ (tr : Track) (l : List Obs), tr.stats.fall_detected = true →
        (run_track_from H th tr l).stats.fall_detected = true) ∧
    (∀ (id : ℕ) (tr : Track), (summarize id tr).fall_detected = tr.stats.fall_detected) ∧
    (∀ l : List Obs, fall_increments H th newTrack l =
        if (run_track H th l).stats.fall_detected = true then 1 else 0) ∧
    (∀ (s : Store) (id : ℕ) (o : Obs),
        ((update s id o).1).global_stats.total_falls_detected
          = s.global_stats.total_falls_detected
            + (if (update_track_full s.history_frames s.thresholds (getTrack s id).1 o).newFall
               then 1 else 0)) := by
  refine ⟨fun tr o h => update_track_sticky H th tr o h,
    fun tr l h => run_track_from_sticky H th l tr h,
    fun id tr => rfl, ?_, ?_⟩
  · intro l
    rw [run_track, fall_increments_eq]
    have h0 : newTrack.stats.fall_detected = false := rfl
    simp [h0]
  · intro s id o
    unfold update
    dsimp only
    rw [getTrack_snd_global]

/-- C10: across a nonempty run the stationary and moving frame counters
partition all but the first update, while a sitting-classified update
increments the sitting counter in addition to one of the other two, so the
three counters overlap rather than partition the total frame count. -/
theorem frame_counters_overlap (H : ℕ) (th : Thresholds) (hH : 2 ≤ H) :
    (∀ l : List Obs, 1 ≤ l.length →
        (run_track H th l).stats.frames_stationary
          + (run_track H th l).stats.frames_moving = l.length - 1) ∧
    (∀ (tr : Track) (o : Obs),
        (update_track H th tr o).stats.frames_sitting = tr.stats.frames_sitting + 1 →
        (update_track H th tr o).stats.frames_stationary
            + (update_track H th tr o).stats.frames_moving
          = tr.stats.frames_stationary + tr.stats.frames_moving + 1) := by
  constructor
  · intro l
    induction l using List.reverseRecOn with
    | nil => intro h; simp at h
    | append_singleton l o ih =>
        intro _
        rw [run_track_snoc, update_track_sum]
        rcases Nat.eq_zero_or_pos l.length with h0 | hpos
        · obtain rfl : l = [] := List.length_eq_zero.mp h0
          rw [run_track_nil]
          rw [appendBounded_length]
          have hc : ¬ (2 ≤ min (newTrack.positions.length + 1) H) := by
            have : newTrack.positions.length = 0 := rfl
            omega
          rw [if_neg hc]
          rfl
        · rw [ih hpos, appendBounded_length, run_track_positions_length,
            if_pos (by omega : 2 ≤ min (min l.length H + 1) H)]
          simp
          omega
  · intro tr o h
    by_cases hc : 10 ≤ (appendBounded H tr.positions (get_bbox_center o.bbox)).length ∧
        classify_activity_simple th (accumulate_speed_stats th (append_raw H tr o)) 30
          = "sitting"
    · rw [update_track_sum, if_pos (le_trans (by norm_num : (2:ℕ) ≤ 10) hc.1)]
    · rw [update_track_sitting, if_neg hc] at h
      omega

/-- C1: for a track with at least ten history entries, the classifier label
is exactly the spec formula: normalized speed over the last min(30, len)
samples, the mean hip ratio over the last five samples with available
keypoints (1/2 when none is available), and the three threshold rules in
priority order sitting, stationary, moving. -/
theorem classifier_rule_matches_spec (th : Thresholds) (tr : Track)
    (h : 10 ≤ tr.keypoints.length) :
    classify_activity_simple th tr 30 =
      (let speed := calculate_normalized_speed tr.positions tr.timestamps tr.bboxes 30
       let hip_ratios :=
         ((lastN 5 tr.keypoints).zip (lastN 5 tr.bboxes)).filterMap fun p =>
           calculate_hip_ratio p.1 p.2
       let avg : ℚ := if hip_ratios = [] then 1/2 else hip_ratios.sum / hip_ratios.length
       if avg > th.hip_ratio_sitting ∧ speed < (th.speed_stationary : ℝ) * 1.5 then
         "sitting"
       else if speed < (th.speed_stationary : ℝ) then "stationary"
       else "moving") := by
  unfold classify_activity_simple avgHipRatio mean
  dsimp only
  rw [if_neg (by omega : ¬ tr.keypoints.length = 0)]

/-- Pointwise agreement between the source pose-height helper and the spec
description of normalizedPoseHeight. -/
theorem pose_height_spec_eq (kp : Keypoints) (b : Bbox) :
    calculate_pose_height_normalized kp b =
      match kp.nose, kp.left_ankle, kp.right_ankle with
      | some nose, some la, some ra =>
          if 0 < get_bbox_height b then
            some (|(la.2 + ra.2) / 2 - nose.2| / get_bbox_height b)
          else none
      | _, _, _ => none := by
  unfold calculate_pose_height_normalized
  cases kp.nose <;> cases kp.left_ankle <;> cases kp.right_ankle <;> dsimp only <;> try rfl
  by_cases hb : get_bbox_height b ≤ 0
  · rw [if_pos hb, if_neg (not_lt.mpr hb)]
  · rw [if_neg hb, if_pos (lt_of_not_le hb)]

/-- C2: the fall detector agrees with the spec formula — no fall below
fifteen keypoint-history entries, the available normalized pose heights over
the last fifteen entries, no fall with fewer than five of them, and
otherwise a fall exactly when the relative drop between the first-three and
last-three means exceeds the drop threshold within strictly less than the
time threshold; moreover the update step leaves the fall state untouched
while the appended keypoint history is still shorter than fifteen. -/
theorem fall_detector_matches_spec (th : Thresholds) :
    (∀ tr : Track,
      detect_fall_simple th tr 15 =
        (if tr.keypoints.length < 15 then false
         else
           let heights :=
             ((lastN 15 tr.keypoints).zip (lastN 15 tr.bboxes)).filterMap
               fun p : Keypoints × Bbox =>
                 match p.1.nose, p.1.left_ankle, p.1.right_ankle with
                 | some nose, some la, some ra =>
                     if 0 < get_bbox_height p.2 then
                       some (|(la.2 + ra.2) / 2 - nose.2| / get_bbox_height p.2)
                     else none
                 | _, _, _ => none
           if heights.length < 5 then false
           else
             let startH := (heights.take 3).sum / 3
             let endH := (lastN 3 heights).sum / 3
             let dropRatio := if startH ≤ 0 then 0 else (startH - endH) / startH
             let dt := (lastN 15 tr.timestamps).getLast?.getD 0
                         - (lastN 15 tr.timestamps).head?.getD 0
             decide (dropRatio > th.fall_drop_ratio ∧ dt < th.fall_time_threshold))) ∧
    (∀ (H : ℕ) (tr : Track) (o : Obs),
        (appendBounded H tr.keypoints o.keypoints).length < 15 →
        (update_track H th tr o).stats.fall_detected = tr.stats.fall_detected ∧
        (update_track H th tr o).stats.fall_timestamp = tr.stats.fall_timestamp) := by
  constructor
  · intro tr
    unfold detect_fall_simple
    dsimp only
    by_cases hlen : tr.keypoints.length < 15
    · rw [if_pos hlen, if_pos hlen]
    · rw [if_neg hlen, if_neg hlen]
      have hfun : (fun p : Keypoints × Bbox => calculate_pose_height_normalized p.1 p.2)
          = fun p : Keypoints × Bbox =>
              match p.1.nose, p.1.left_ankle, p.1.right_ankle with
              | some nose, some la, some ra =>
                  if 0 < get_bbox_height p.2 then
                    some (|(la.2 + ra.2) / 2 - nose.2| / get_bbox_height p.2)
                  else none
              | _, _, _ => none := funext fun p => pose_height_spec_eq p.1 p.2
      rw [hfun]
      set heights :=
        ((lastN 15 tr.keypoints).zip (lastN 15 tr.bboxes)).filterMap
          (fun p : Keypoints × Bbox =>
            match p.1.nose, p.1.left_ankle, p.1.right_ankle with
            | some nose, some la, some ra =>
                if 0 < get_bbox_height p.2 then
                  some (|(la.2 + ra.2) / 2 - nose.2| / get_bbox_height p.2)
                else none
            | _, _, _ => none) with hh
      by_cases h5 : heights.length < 5
      · rw [if_pos h5, if_pos h5]
      · rw [if_neg h5, if_neg h5]
        have ht : mean (heights.take 3) = (heights.take 3).sum / 3 := by
          unfold mean
          rw [show (heights.take 3).length = 3 by rw [List.length_take]; omega]
          norm_num
        have he : mean (lastN 3 heights) = (lastN 3 heights).sum / 3 := by
          unfold mean
          rw [show (lastN 3 heights).length = 3 by rw [lastN_length]; omega]
          norm_num
        rw [ht, he]
        have hl3 : lastN 3 heights = heights.drop (heights.length - 3) := rfl
        have hdrop :
            (if (heights.take 3).sum / 3 > 0 then
               ((heights.take 3).sum / 3 - (lastN 3 heights).sum / 3)
                 / ((heights.take 3).sum / 3)
             else 0)
            = (if (heights.take 3).sum / 3 ≤ 0 then 0
               else ((heights.take 3).sum / 3 - (lastN 3 heights).sum / 3)
                 / ((heights.take 3).sum / 3)) := by
          by_cases hs : (heights.take 3).sum / 3 ≤ 0
          · rw [if_neg (not_lt.mpr hs), if_pos hs]
          · rw [if_pos (lt_of_not_le hs), if_neg hs]
        rw [hdrop]
  · intro H tr o hshort
    have hk : (classify_step th (accumulate_speed_stats th (append_raw H tr o))
        o.timestamp).1.keypoints.length < 15 := by
      rw [classify_step_fst_keypoints, accumulate_speed_stats_keypoints]
      exact hshort
    have hfs : fall_step th
        (classify_step th (accumulate_speed_stats th (append_raw H tr o)) o.timestamp).1
        o.timestamp
        = ((classify_step th (accumulate_speed_stats th (append_raw H tr o))
            o.timestamp).1, false) := by
      unfold fall_step
      rw [detect_fall_simple, if_pos hk]
      simp
    constructor
    · rw [update_track_eq, hfs, classify_step_fst_fall, accumulate_speed_stats_fall]
      rfl
    · rw [update_track_eq, hfs, classify_step_fst_fall_timestamp,
        accumulate_speed_stats_fall_timestamp]
      rfl

/-! Store-level lookup facts. -/

theorem lookup_append_of_none (l : List (ℕ × Track)) (id : ℕ) (x : Track)
    (h : l.lookup id = none) : (l ++ [(id, x)]).lookup id = some x := by
  induction l with
  | nil => simp [List.lookup]
  | cons hd tl ih =>
      obtain ⟨k, v⟩ := hd
      cases hbeq : (id == k)
      · rw [List.cons_append]
        rw [List.lookup] at h ⊢
        rw [hbeq] at h ⊢
        exact ih h
      · rw [List.lookup, hbeq] at h
        exact absurd h (by simp)

theorem getTrack_getTrack (s : Store) (id : ℕ) :
    getTrack (getTrack s id).2 id = ((getTrack s id).1, (getTrack s id).2) := by
  unfold getTrack
  rcases hl : s.tracks.lookup id with _ | tr
  · simp only [hl]
    rw [lookup_append_of_none _ _ _ hl]
  · simp only [hl]

theorem detect_activity_change_fst (s : Store) (id : ℕ) :
    (detect_activity_change s id).1 =
      if (getTrack s id).1.current_activity ≠ (getTrack s id).1.previous_activity ∧
          (getTrack s id).1.previous_activity ≠ "unknown"
      then some ⟨id, (getTrack s id).1.previous_activity,
                 (getTrack s id).1.current_activity, (getTrack s id).1.last_seen⟩
      else none := by
  unfold detect_activity_change
  dsimp only
  split <;> rfl

theorem detect_activity_change_snd (s : Store) (id : ℕ) :
    (detect_activity_change s id).2 = (getTrack s id).2 := by
  unfold detect_activity_change
  dsimp only
  split <;> rfl

/-- C5: the query `detect_activity_change` returns the transition — from the previous
to the current activity, stamped with the last-seen timestamp — exactly when
the two labels differ and the previous one is concrete, and otherwise
returns nothing; querying again without an intervening update returns the
same result, as the query clears no flag. -/
theorem detect_activity_change_spec (s : Store) (id : ℕ) :
    ((detect_activity_change s id).1 =
      if (getTrack s id).1.current_activity ≠ (getTrack s id).1.previous_activity ∧
          (getTrack s id).1.previous_activity ≠ "unknown"
      then some ⟨id, (getTrack s id).1.previous_activity,
                 (getTrack s id).1.current_activity, (getTrack s id).1.last_seen⟩
      else none) ∧
    (detect_activity_change (detect_activity_change s id).2 id).1
      = (detect_activity_change s id).1 := by
  refine ⟨detect_activity_change_fst s id, ?_⟩
  rw [detect_activity_change_snd, detect_activity_change_fst,
    detect_activity_change_fst, getTrack_getTrack]

/-! Scale invariance of the normalized speed. -/

theorem stepDistance_scale (p q : ℚ × ℚ) :
    stepDistance (scalePoint p) (scalePoint q) = 2 * stepDistance p q := by
  unfold stepDistance scalePoint
  dsimp only
  have h : ((2 * q.1 - 2 * p.1 : ℚ) : ℝ) ^ 2 + ((2 * q.2 - 2 * p.2 : ℚ) : ℝ) ^ 2
      = (2 : ℝ) ^ 2 * (((q.1 - p.1 : ℚ) : ℝ) ^ 2 + ((q.2 - p.2 : ℚ) : ℝ) ^ 2) := by
    push_cast
    ring
  rw [h, Real.sqrt_mul (by positivity), Real.sqrt_sq (by norm_num)]

theorem totalDistance_scale (l : List (ℚ × ℚ)) :
    totalDistance (l.map scalePoint) = 2 * totalDistance l := by
  induction l with
  | nil => simp [totalDistance]
  | cons p rest ih =>
      cases rest with
      | nil => simp [totalDistance]
      | cons q rest2 =>
          simp only [List.map_cons] at ih ⊢
          rw [show totalDistance
                (scalePoint p :: scalePoint q :: rest2.map scalePoint)
              = stepDistance (scalePoint p) (scalePoint q)
                + totalDistance (scalePoint q :: rest2.map scalePoint) from rfl]
          rw [show totalDistance (p :: q :: rest2)
              = stepDistance p q + totalDistance (q :: rest2) from rfl]
          rw [stepDistance_scale, ih]
          ring

theorem sum_map_double (l : List ℚ) : (l.map fun x => 2 * x).sum = 2 * l.sum := by
  induction l with
  | nil => simp
  | cons a t ih =>
      simp [ih]
      ring

theorem mean_scale (l : List ℚ) : mean (l.map fun x => 2 * x) = 2 * mean l := by
  unfold mean
  rw [List.length_map, sum_map_double, mul_div_assoc]

theorem lastN_map (n : ℕ) (l : List α) (f : α → β) :
    lastN n (l.map f) = (lastN n l).map f := by
  unfold lastN
  rw [List.length_map, List.map_drop]

/-- C7: doubling every bounding-box coordinate — and hence every stored
center — while keeping timestamps fixed leaves the normalized speed
unchanged. -/
theorem normalized_speed_scale_invariant (positions : List (ℚ × ℚ))
    (timestamps : List ℚ) (bboxes : List Bbox) (window : ℕ) :
    (calculate_normalized_speed (positions.map scalePoint) timestamps
        (bboxes.map scaleBbox) window
      = calculate_normalized_speed positions timestamps bboxes window) ∧
    (∀ b : Bbox, get_bbox_center (scaleBbox b) = scalePoint (get_bbox_center b)) := by
  constructor
  · unfold calculate_normalized_speed
    rw [List.length_map]
    by_cases h2 : positions.length < 2
    · rw [if_pos h2, if_pos h2]
    · rw [if_neg h2, if_neg h2]
      dsimp only
      rw [lastN_map (min window positions.length) positions scalePoint,
        lastN_map (min window positions.length) bboxes scaleBbox, totalDistance_scale]
      have hh : ((lastN (min window positions.length) bboxes).map scaleBbox).map
            get_bbox_height
          = ((lastN (min window positions.length) bboxes).map get_bbox_height).map
            fun x => 2 * x := by
        rw [List.map_map, List.map_map]
        congr 1
        funext b
        unfold scaleBbox get_bbox_height
        simp only [Function.comp_apply]
        ring
      rw [hh, mean_scale]
      by_cases hdt : (lastN (min window positions.length) timestamps).getLast?.getD 0
          - (lastN (min window positions.length) timestamps).head?.getD 0 ≤ 0
      · rw [if_pos hdt, if_pos hdt]
      · rw [if_neg hdt, if_neg hdt]
        set a := mean ((lastN (min window positions.length) bboxes).map get_bbox_height)
          with ha
        by_cases hle : a ≤ 0
        · rw [if_pos (by linarith : 2 * a ≤ 0), if_pos hle]
        · have hpos : 0 < a := lt_of_not_le hle
          rw [if_neg (by linarith : ¬ 2 * a ≤ 0), if_neg hle]
          have hane : (a : ℝ) ≠ 0 := by
            exact_mod_cast ne_of_gt hpos
          have hdtne : ((lastN (min window positions.length) timestamps).getLast?.getD 0
              - (lastN (min window positions.length) timestamps).head?.getD 0 : ℚ) ≠ 0 := by
            intro hc
            exact hdt (le_of_eq hc)
          have hdtne' : (((lastN (min window positions.length) timestamps).getLast?.getD 0
              - (lastN (min window positions.length) timestamps).head?.getD 0 : ℚ) : ℝ)
              ≠ 0 := by
            exact_mod_cast hdtne
          push_cast at hdtne' ⊢
          field_simp
          ring
  · intro b
    unfold get_bbox_center scaleBbox scalePoint
    dsimp only
    simp only [Prod.mk.injEq]
    constructor <;> ring

/-! Targeted evaluation lemmas for concrete runs. -/

theorem appendBounded_of_le (H : ℕ) (l : List α) (a : α) (h : l.length + 1 ≤ H) :
    appendBounded H l a = l ++ [a] := by
  unfold appendBounded
  dsimp only
  have h0 : (l ++ [a]).length - H = 0 := by
    simp
    omega
  rw [h0, List.drop_zero]

theorem calculate_normalized_speed_of_dt_nonpos (positions : List (ℚ × ℚ))
    (ts : List ℚ) (bboxes : List Bbox) (w : ℕ)
    (h : (lastN (min w positions.length) ts).getLast?.getD 0
        - (lastN (min w positions.length) ts).head?.getD 0 ≤ 0) :
    calculate_normalized_speed positions ts bboxes w = 0 := by
  unfold calculate_normalized_speed
  split
  · rfl
  · dsimp only
    rw [if_pos h]

theorem ends_sub_nonpos_of_const (l : List ℚ) (c : ℚ) (h : ∀ x ∈ l, x = c) :
    l.getLast?.getD c - l.head?.getD c ≤ 0 := by
  cases l with
  | nil => simp
  | cons a t =>
      rcases hg : (a :: t).getLast? with _ | x
      · rw [List.getLast?_eq_none_iff] at hg
        exact absurd hg (by simp)
      · have hx : x ∈ a :: t := by
          obtain ⟨hne2, hx⟩ :=
            List.mem_getLast?_eq_getLast (show x ∈ (a :: t).getLast? by simp [hg])
          rw [hx]
          exact List.getLast_mem hne2
        simp [h x hx, h a (List.mem_cons_self a t)]

theorem speed_zero_of_const_ts (positions : List (ℚ × ℚ)) (bboxes : List Bbox)
    (w n : ℕ) :
    calculate_normalized_speed positions (List.replicate n (0 : ℚ)) bboxes w = 0 := by
  apply calculate_normalized_speed_of_dt_nonpos
  apply ends_sub_nonpos_of_const _ 0
  intro x hx
  exact List.eq_of_mem_replicate (List.drop_subset _ _ hx)

theorem avgHipRatio_noKp (t : Track) (m : ℕ)
    (hk : t.keypoints = List.replicate m noKeypoints) : avgHipRatio t = 1/2 := by
  unfold avgHipRatio
  dsimp only
  rw [hk]
  have hnil : ((lastN 5 (List.replicate m noKeypoints)).zip (lastN 5 t.bboxes)).filterMap
      (fun p => calculate_hip_ratio p.1 p.2) = [] := by
    rw [List.filterMap_eq_nil_iff]
    intro p hp
    have h1 : p.1 ∈ lastN 5 (List.replicate m noKeypoints) := (List.of_mem_zip hp).1
    have h2 : p.1 = noKeypoints :=
      List.eq_of_mem_replicate (List.drop_subset _ _ h1)
    rw [h2]
    rfl
  rw [hnil]
  rfl

theorem classify_stay_eval (t : Track) (n m : ℕ)
    (hts : t.timestamps = List.replicate n 0)
    (hk : t.keypoints = List.replicate (m + 1) noKeypoints) :
    classify_activity_simple defaultThresholds t 30 = "stationary" := by
  unfold classify_activity_simple
  dsimp only
  rw [avgHipRatio_noKp t (m + 1) hk, hts,
    speed_zero_of_const_ts t.positions t.bboxes 30 n, hk]
  rw [if_neg (by simp : ¬ (List.replicate (m + 1) noKeypoints).length = 0)]
  rw [if_neg (by
    intro hc
    have := hc.1
    norm_num [defaultThresholds] at this)]
  rw [if_pos (by norm_num [defaultThresholds])]

theorem accumulate_stationary_eval (th : Thresholds) (tr : Track)
    (h2 : 2 ≤ tr.positions.length)
    (hsp : calculate_normalized_speed tr.positions tr.timestamps tr.bboxes 10
      < (th.speed_stationary : ℝ)) :
    accumulate_speed_stats th tr =
      { tr with stats :=
        { tr.stats with frames_stationary := tr.stats.frames_stationary + 1 } } := by
  unfold accumulate_speed_stats
  dsimp only
  rw [if_pos h2, if_pos hsp]

theorem accumulate_moving_eval (th : Thresholds) (tr : Track)
    (h2 : 2 ≤ tr.positions.length)
    (hsp : ¬ calculate_normalized_speed tr.positions tr.timestamps tr.bboxes 10
      < (th.speed_stationary : ℝ)) :
    accumulate_speed_stats th tr =
      { tr with stats :=
        { tr.stats with
          frames_moving := tr.stats.frames_moving + 1
          total_distance_norm := tr.stats.total_distance_norm
            + calculate_normalized_speed tr.positions tr.timestamps tr.bboxes 10 } } := by
  unfold accumulate_speed_stats
  dsimp only
  rw [if_pos h2, if_neg hsp]

theorem accumulate_short_eval (th : Thresholds) (tr : Track)
    (h2 : ¬ 2 ≤ tr.positions.length) : accumulate_speed_stats th tr = tr := by
  unfold accumulate_speed_stats
  dsimp only
  rw [if_neg h2]

theorem classify_step_short_eval (th : Thresholds) (tr : Track) (ts : ℚ)
    (h : ¬ 10 ≤ tr.positions.length) : classify_step th tr ts = (tr, false) := by
  unfold classify_step
  dsimp only
  rw [if_neg h]

theorem classify_step_nochange_eval (th : Thresholds) (tr : Track) (ts : ℚ)
    (h10 : 10 ≤ tr.positions.length) (curr : String)
    (hcurr : classify_activity_simple th tr 30 = curr)
    (hnc : tr.current_activity = "unknown" ∨ curr = tr.current_activity)
    (hns : curr ≠ "sitting") :
    classify_step th tr ts =
      ({ tr with previous_activity := tr.current_activity, current_activity := curr },
       false) := by
  unfold classify_step
  dsimp only
  rw [if_pos h10, hcurr]
  have hch : ¬ (tr.current_activity ≠ "unknown" ∧ curr ≠ tr.current_activity) := by
    rcases hnc with h | h
    · intro hc
      exact hc.1 h
    · intro hc
      exact hc.2 h
  rw [if_neg hch, if_neg hns, decide_eq_false hch]

theorem classify_step_change_eval (th : Thresholds) (tr : Track) (ts : ℚ)
    (h10 : 10 ≤ tr.positions.length) (curr : String)
    (hcurr : classify_activity_simple th tr 30 = curr)
    (hprev : tr.current_activity ≠ "unknown") (hdiff : curr ≠ tr.current_activity)
    (hns : curr ≠ "sitting") :
    classify_step th tr ts =
      ({ tr with
          previous_activity := tr.current_activity
          current_activity := curr
          stats := { tr.stats with activity_changes :=
            tr.stats.activity_changes ++ [⟨ts, tr.current_activity, curr⟩] } },
       true) := by
  unfold classify_step
  dsimp only
  rw [if_pos h10, hcurr]
  have hch : tr.current_activity ≠ "unknown" ∧ curr ≠ tr.current_activity := ⟨hprev, hdiff⟩
  rw [if_pos hch, if_neg hns, decide_eq_true hch]

theorem fall_step_short_eval (th : Thresholds) (tr : Track) (ts : ℚ)
    (h : ¬ 15 ≤ tr.keypoints.length) : fall_step th tr ts = (tr, false) := by
  unfold fall_step
  dsimp only
  rw [if_neg h]

theorem classify_step_fst_timestamps (th : Thresholds) (tr : Track) (ts : ℚ) :
    (classify_step th tr ts).1.timestamps = tr.timestamps := by
  unfold classify_step
  dsimp only
  split <;> [split <;> split <;> rfl; rfl]

theorem classify_step_fst_bboxes (th : Thresholds) (tr : Track) (ts : ℚ) :
    (classify_step th tr ts).1.bboxes = tr.bboxes := by
  unfold classify_step
  dsimp only
  split <;> [split <;> split <;> rfl; rfl]

theorem classify_step_fst_last_seen (th : Thresholds) (tr : Track) (ts : ℚ) :
    (classify_step th tr ts).1.last_seen = tr.last_seen := by
  unfold classify_step
  dsimp only
  split <;> [split <;> split <;> rfl; rfl]

theorem fall_step_fst_timestamps (th : Thresholds) (tr : Track) (ts : ℚ) :
    (fall_step th tr ts).1.timestamps = tr.timestamps := by
  unfold fall_step
  dsimp only
  split <;> [split <;> [split <;> rfl; rfl]; rfl]

theorem fall_step_fst_bboxes (th : Thresholds) (tr : Track) (ts : ℚ) :
    (fall_step th tr ts).1.bboxes = tr.bboxes := by
  unfold fall_step
  dsimp only
  split <;> [split <;> [split <;> rfl; rfl]; rfl]

theorem fall_step_fst_last_seen (th : Thresholds) (tr : Track) (ts : ℚ) :
    (fall_step th tr ts).1.last_seen = tr.last_seen := by
  unfold fall_step
  dsimp only
  split <;> [split <;> [split <;> rfl; rfl]; rfl]

theorem accumulate_speed_stats_last_seen (th : Thresholds) (tr : Track) :
    (accumulate_speed_stats th tr).last_seen = tr.last_seen := by
  unfold accumulate_speed_stats
  dsimp only
  split <;> [split <;> rfl; rfl]

theorem update_track_timestamps (H : ℕ) (th : Thresholds) (tr : Track) (o : Obs) :
    (update_track H th tr o).timestamps = appendBounded H tr.timestamps o.timestamp := by
  rw [update_track_eq, fall_step_fst_timestamps, classify_step_fst_timestamps,
    accumulate_speed_stats_timestamps]
  rfl

theorem update_track_bboxes (H : ℕ) (th : Thresholds) (tr : Track) (o : Obs) :
    (update_track H th tr o).bboxes = appendBounded H tr.bboxes o.bbox := by
  rw [update_track_eq, fall_step_fst_bboxes, classify_step_fst_bboxes,
    accumulate_speed_stats_bboxes]
  rfl

theorem update_track_last_seen (H : ℕ) (th : Thresholds) (tr : Track) (o : Obs) :
    (update_track H th tr o).last_seen = some o.timestamp := by
  rw [update_track_eq, fall_step_fst_last_seen, classify_step_fst_last_seen,
    accumulate_speed_stats_last_seen]
  rfl

/-! Concrete distance and speed computations for the demonstration run. -/

theorem stepDistance_self (c : ℚ × ℚ) : stepDistance c c = 0 := by
  unfold stepDistance
  simp

theorem totalDistance_replicate_append (c d : ℚ × ℚ) :
    ∀ k : ℕ, totalDistance (List.replicate (k + 1) c ++ [d]) = stepDistance c d := by
  intro k
  induction k with
  | zero =>
      show stepDistance c d + totalDistance [d] = stepDistance c d
      show stepDistance c d + 0 = stepDistance c d
      ring
  | succ k ih =>
      rw [show List.replicate (k + 2) c ++ [d] = c :: (List.replicate (k + 1) c ++ [d]) from
        by rw [List.replicate_succ]; rfl]
      rw [show (c :: (List.replicate (k + 1) c ++ [d]))
          = c :: c :: (List.replicate k c ++ [d]) from by rw [List.replicate_succ]; rfl]
      show stepDistance c c + totalDistance (c :: (List.replicate k c ++ [d]))
          = stepDistance c d
      rw [stepDistance_self,
        show (c :: (List.replicate k c ++ [d])) = List.replicate (k + 1) c ++ [d] from
          by rw [List.replicate_succ]; rfl,
        ih]
      ring

theorem stepDistance_jump :
    stepDistance ((1/2 : ℚ), (1/2 : ℚ)) ((1/2 : ℚ), (21/2 : ℚ)) = 10 := by
  unfold stepDistance
  rw [show (((1/2 : ℚ) - (1/2 : ℚ) : ℚ) : ℝ) ^ 2 + (((21/2 : ℚ) - (1/2 : ℚ) : ℚ) : ℝ) ^ 2
      = (10 : ℝ) ^ 2 from by push_cast; norm_num]
  exact Real.sqrt_sq (by norm_num)

theorem calculate_normalized_speed_eval (positions : List (ℚ × ℚ)) (ts : List ℚ)
    (bboxes : List Bbox) (w : ℕ) (hlen : ¬ positions.length < 2) (dtv : ℚ)
    (hdt : (lastN (min w positions.length) ts).getLast?.getD 0
      - (lastN (min w positions.length) ts).head?.getD 0 = dtv)
    (hdtpos : 0 < dtv) (av : ℚ)
    (hav : mean ((lastN (min w positions.length) bboxes).map get_bbox_height) = av)
    (havpos : 0 < av) (td : ℝ)
    (htd : totalDistance (lastN (min w positions.length) positions) = td) :
    calculate_normalized_speed positions ts bboxes w = td / (dtv : ℝ) / (av : ℝ) := by
  unfold calculate_normalized_speed
  rw [if_neg hlen]
  dsimp only
  rw [hdt, htd, hav, if_neg (not_le.mpr hdtpos), if_neg (not_le.mpr havpos)]

theorem speed_jump_30 :
    calculate_normalized_speed
      (List.replicate 10 ((1/2 : ℚ), (1/2 : ℚ)) ++ [((1/2 : ℚ), (21/2 : ℚ))])
      (List.replicate 10 (0 : ℚ) ++ [1])
      (List.replicate 10 unitBox ++ [jumpBox]) 30 = 10 := by
  have hw : min 30 (List.replicate 10 ((1/2 : ℚ), (1/2 : ℚ))
      ++ [((1/2 : ℚ), (21/2 : ℚ))]).length = 11 := by simp
  have hfull : ∀ (α : Type) (l : List α), l.length = 11 → lastN 11 l = l := by
    intro α l hl
    unfold lastN
    rw [hl]
    simp
  have htd : totalDistance
      (lastN (min 30 (List.replicate 10 ((1/2 : ℚ), (1/2 : ℚ))
          ++ [((1/2 : ℚ), (21/2 : ℚ))]).length)
        (List.replicate 10 ((1/2 : ℚ), (1/2 : ℚ)) ++ [((1/2 : ℚ), (21/2 : ℚ))]))
      = 10 := by
    rw [hw, hfull _ _ (by simp),
      show List.replicate 10 ((1/2 : ℚ), (1/2 : ℚ)) ++ [((1/2 : ℚ), (21/2 : ℚ))]
        = List.replicate (9 + 1) ((1/2 : ℚ), (1/2 : ℚ)) ++ [((1/2 : ℚ), (21/2 : ℚ))]
      from by norm_num]
    rw [totalDistance_replicate_append, stepDistance_jump]
  have hdt : (lastN (min 30 (List.replicate 10 ((1/2 : ℚ), (1/2 : ℚ))
        ++ [((1/2 : ℚ), (21/2 : ℚ))]).length) (List.replicate 10 (0 : ℚ) ++ [1])).getLast?.getD 0
      - (lastN (min 30 (List.replicate 10 ((1/2 : ℚ), (1/2 : ℚ))
        ++ [((1/2 : ℚ), (21/2 : ℚ))]).length)
          (List.replicate 10 (0 : ℚ) ++ [1])).head?.getD 0 = 1 := by
    rw [hw, hfull _ _ (by simp)]
    rw [show List.replicate 10 (0 : ℚ) ++ [1] = 0 :: (List.replicate 9 (0 : ℚ) ++ [1]) from rfl]
    simp
  have hav : mean ((lastN (min 30 (List.replicate 10 ((1/2 : ℚ), (1/2 : ℚ))
        ++ [((1/2 : ℚ), (21/2 : ℚ))]).length)
      (List.replicate 10 unitBox ++ [jumpBox])).map get_bbox_height) = 1 := by
    rw [hw, hfull _ _ (by simp)]
    rw [show (List.replicate 10 unitBox ++ [jumpBox]).map get_bbox_height
        = List.replicate 10 (1 : ℚ) ++ [1] from by
      simp [get_bbox_height, unitBox, jumpBox]
      norm_num]
    rw [show List.replicate 10 (1 : ℚ) ++ [1] = List.replicate (10 + 1) (1 : ℚ) from by
      rw [← List.replicate_succ']]
    unfold mean
    rw [List.sum_replicate, List.length_replicate]
    norm_num
  rw [calculate_normalized_speed_eval _ _ _ _ (by simp) 1 hdt (by norm_num)
    1 hav (by norm_num) 10 htd]
  norm_num

theorem classify_jump_eval (t : Track)
    (hts : t.timestamps = List.replicate 10 (0 : ℚ) ++ [1])
    (hp : t.positions = List.replicate 10 ((1/2 : ℚ), (1/2 : ℚ))
      ++ [((1/2 : ℚ), (21/2 : ℚ))])
    (hb : t.bboxes = List.replicate 10 unitBox ++ [jumpBox])
    (hk : t.keypoints = List.replicate 11 noKeypoints) :
    classify_activity_simple defaultThresholds t 30 = "moving" := by
  unfold classify_activity_simple
  dsimp only
  rw [avgHipRatio_noKp t 11 hk, hp, hts, hb, speed_jump_30, hk]
  rw [if_neg (by simp : ¬ (List.replicate 11 noKeypoints).length = 0)]
  rw [if_neg (fun hc => absurd hc.1 (by norm_num [defaultThresholds]))]
  rw [if_neg (by norm_num [defaultThresholds] :
    ¬ (10 : ℝ) < (defaultThresholds.speed_stationary : ℝ))]

theorem run_stay_lists : ∀ k : ℕ, k ≤ 10 →
    (run_track 45 defaultThresholds (List.replicate k obsStay)).timestamps
        = List.replicate k 0 ∧
    (run_track 45 defaultThresholds (List.replicate k obsStay)).positions
        = List.replicate k ((1/2 : ℚ), (1/2 : ℚ)) ∧
    (run_track 45 defaultThresholds (List.replicate k obsStay)).bboxes
        = List.replicate k unitBox ∧
    (run_track 45 defaultThresholds (List.replicate k obsStay)).keypoints
        = List.replicate k noKeypoints := by
  intro k
  induction k with
  | zero => exact fun _ => ⟨rfl, rfl, rfl, rfl⟩
  | succ k ih =>
      intro hk
      obtain ⟨h1, h2, h3, h4⟩ := ih (by omega)
      rw [List.replicate_succ', run_track_snoc]
      refine ⟨?_, ?_, ?_, ?_⟩
      · rw [update_track_timestamps, h1, appendBounded_of_le _ _ _ (by simp; omega),
          show obsStay.timestamp = (0 : ℚ) from rfl, ← List.replicate_succ']
      · rw [update_track_positions, h2, appendBounded_of_le _ _ _ (by simp; omega),
          show get_bbox_center obsStay.bbox = ((1/2 : ℚ), (1/2 : ℚ)) from by
            norm_num [get_bbox_center, obsStay, unitBox],
          ← List.replicate_succ']
      · rw [update_track_bboxes, h3, appendBounded_of_le _ _ _ (by simp; omega),
          show obsStay.bbox = unitBox from rfl, ← List.replicate_succ']
      · rw [update_track_keypoints, h4, appendBounded_of_le _ _ _ (by simp; omega),
          show obsStay.keypoints = noKeypoints from rfl, ← List.replicate_succ']

theorem append_raw_timestamps (H : ℕ) (tr : Track) (o : Obs) :
    (append_raw H tr o).timestamps = appendBounded H tr.timestamps o.timestamp := rfl

theorem append_raw_positions (H : ℕ) (tr : Track) (o : Obs) :
    (append_raw H tr o).positions
      = appendBounded H tr.positions (get_bbox_center o.bbox) := rfl

theorem append_raw_bboxes (H : ℕ) (tr : Track) (o : Obs) :
    (append_raw H tr o).bboxes = appendBounded H tr.bboxes o.bbox := rfl

theorem append_raw_keypoints (H : ℕ) (tr : Track) (o : Obs) :
    (append_raw H tr o).keypoints = appendBounded H tr.keypoints o.keypoints := rfl

theorem run_stay_current10 :
    (run_track 45 defaultThresholds (List.replicate 10 obsStay)).current_activity
      = "stationary" := by
  obtain ⟨h1, h2, h3, h4⟩ := run_stay_lists 9 (by norm_num)
  rw [show List.replicate 10 obsStay = List.replicate 9 obsStay ++ [obsStay] from by
    rw [← List.replicate_succ']]
  rw [run_track_snoc, update_track_current, h2, appendBounded_length]
  rw [if_pos (by simp)]
  apply classify_stay_eval _ 10 9
  · rw [accumulate_speed_stats_timestamps,
      append_raw_timestamps,
      h1, appendBounded_of_le _ _ _ (by simp),
      show obsStay.timestamp = (0 : ℚ) from rfl, ← List.replicate_succ']
  · rw [accumulate_speed_stats_keypoints,
      append_raw_keypoints,
      h4, appendBounded_of_le _ _ _ (by simp),
      show obsStay.keypoints = noKeypoints from rfl, ← List.replicate_succ']

theorem demo_previous :
    (run_track 45 defaultThresholds demoObs).previous_activity = "stationary" := by
  rw [show demoObs = List.replicate 10 obsStay ++ [obsJump] from rfl, run_track_snoc,
    update_track_previous]
  obtain ⟨_, h2, _, _⟩ := run_stay_lists 10 (le_refl 10)
  rw [h2, appendBounded_length, if_pos (by simp), run_stay_current10]

theorem demo_current :
    (run_track 45 defaultThresholds demoObs).current_activity = "moving" := by
  rw [show demoObs = List.replicate 10 obsStay ++ [obsJump] from rfl, run_track_snoc,
    update_track_current]
  obtain ⟨h1, h2, h3, h4⟩ := run_stay_lists 10 (le_refl 10)
  rw [h2, appendBounded_length, if_pos (by simp)]
  apply classify_jump_eval
  · rw [accumulate_speed_stats_timestamps,
      append_raw_timestamps,
      h1, appendBounded_of_le _ _ _ (by simp),
      show obsJump.timestamp = (1 : ℚ) from rfl]
  · rw [accumulate_speed_stats_positions,
      append_raw_positions,
      h2, appendBounded_of_le _ _ _ (by simp),
      show get_bbox_center obsJump.bbox = ((1/2 : ℚ), (21/2 : ℚ)) from by
        norm_num [get_bbox_center, obsJump, jumpBox]]
  · rw [accumulate_speed_stats_bboxes,
      append_raw_bboxes,
      h3, appendBounded_of_le _ _ _ (by simp),
      show obsJump.bbox = jumpBox from rfl]
  · rw [accumulate_speed_stats_keypoints,
      append_raw_keypoints,
      h4, appendBounded_of_le _ _ _ (by simp),
      show obsJump.keypoints = noKeypoints from rfl, ← List.replicate_succ']

theorem demo_last_seen :
    (run_track 45 defaultThresholds demoObs).last_seen = some 1 := by
  rw [show demoObs = List.replicate 10 obsStay ++ [obsJump] from rfl, run_track_snoc,
    update_track_last_seen]
  rfl

/-! Store-level behavior of runs on a single track id. -/

theorem run_store_snoc (s : Store) (id : ℕ) (l : List Obs) (o : Obs) :
    run_store s id (l ++ [o]) = (update (run_store s id l) id o).1 := by
  simp [run_store, List.foldl_append]

theorem lookup_singleton (id : ℕ) (tr : Track) :
    ([(id, tr)] : List (ℕ × Track)).lookup id = some tr := by
  simp [List.lookup]

theorem update_singleton (H : ℕ) (th : Thresholds) (id : ℕ) (tr : Track)
    (gs : GlobalStats) (o : Obs) :
    ((update ⟨H, th, [(id, tr)], gs⟩ id o).1).tracks
        = [(id, update_track H th tr o)] ∧
    ((update ⟨H, th, [(id, tr)], gs⟩ id o).1).history_frames = H ∧
    ((update ⟨H, th, [(id, tr)], gs⟩ id o).1).thresholds = th := by
  unfold update
  dsimp only
  rw [show getTrack ⟨H, th, [(id, tr)], gs⟩ id = (tr, ⟨H, th, [(id, tr)], gs⟩) from by
    unfold getTrack
    rw [lookup_singleton]]
  dsimp only
  refine ⟨?_, rfl, rfl⟩
  unfold setTrack
  simp [update_track_full_track]

theorem run_store_single (H : ℕ) (th : Thresholds) (id : ℕ) :
    ∀ (l : List Obs) (tr : Track) (gs : GlobalStats),
      (run_store ⟨H, th, [(id, tr)], gs⟩ id l).tracks
          = [(id, run_track_from H th tr l)] ∧
      (run_store ⟨H, th, [(id, tr)], gs⟩ id l).history_frames = H ∧
      (run_store ⟨H, th, [(id, tr)], gs⟩ id l).thresholds = th := by
  intro l
  induction l with
  | nil => exact fun tr gs => ⟨rfl, rfl, rfl⟩
  | cons o rest ih =>
      intro tr gs
      obtain ⟨ht, hh, hth⟩ := update_singleton H th id tr gs o
      have hs1 : (update ⟨H, th, [(id, tr)], gs⟩ id o).1
          = ⟨H, th, [(id, update_track H th tr o)],
             ((update ⟨H, th, [(id, tr)], gs⟩ id o).1).global_stats⟩ := by
        rcases hE : (update ⟨H, th, [(id, tr)], gs⟩ id o).1 with ⟨a, b, c, d⟩
        rw [hE] at ht hh hth
        dsimp only at ht hh hth
        rw [ht, hh, hth]
      rw [show run_store ⟨H, th, [(id, tr)], gs⟩ id (o :: rest)
          = run_store (update ⟨H, th, [(id, tr)], gs⟩ id o).1 id rest from rfl, hs1]
      obtain ⟨h1, h2, h3⟩ := ih (update_track H th tr o) _
      exact ⟨by rw [h1, run_track_from_cons], h2, h3⟩

theorem update_from_empty (H : ℕ) (th : Thresholds) (id : ℕ) (o : Obs) :
    (update (newStore H th) id o).1
      = ⟨H, th, [(id, update_track H th newTrack o)],
         ((update (newStore H th) id o).1).global_stats⟩ := by
  have hcomp : ((update (newStore H th) id o).1).tracks
        = [(id, update_track H th newTrack o)] ∧
      ((update (newStore H th) id o).1).history_frames = H ∧
      ((update (newStore H th) id o).1).thresholds = th := by
    unfold update
    dsimp only
    rw [show getTrack (newStore H th) id
        = (newTrack, ⟨H, th, [(id, newTrack)], ⟨0, 0, 0, 0⟩⟩) from by
      unfold getTrack newStore
      rfl]
    dsimp only
    refine ⟨?_, rfl, rfl⟩
    unfold setTrack
    simp [update_track_full_track]
    rfl
  obtain ⟨ht, hh, hth⟩ := hcomp
  rcases hE : (update (newStore H th) id o).1 with ⟨a, b, c, d⟩
  rw [hE] at ht hh hth
  dsimp only at ht hh hth
  rw [ht, hh, hth]

theorem run_store_from_empty (H : ℕ) (th : Thresholds) (id : ℕ) (l : List Obs)
    (hl : l ≠ []) :
    (run_store (newStore H th) id l).tracks = [(id, run_track H th l)] := by
  cases l with
  | nil => exact absurd rfl hl
  | cons o rest =>
      rw [show run_store (newStore H th) id (o :: rest)
          = run_store (update (newStore H th) id o).1 id rest from rfl,
        update_from_empty]
      obtain ⟨h1, _, _⟩ :=
        run_store_single H th id rest (update_track H th newTrack o)
          ((update (newStore H th) id o).1).global_stats
      rw [h1]
      rfl

/-- C4 counterexample: feeding ten stationary frames and a jump for track 7
causes the transition stationary to moving on the eleventh update, the first
`detect_activity_change` query returns it, and a second query — with no
intervening update — returns the very same transition rather than no
change. -/
theorem change_query_not_one_shot_cex :
    (run_track 45 defaultThresholds demoObs).previous_activity = "stationary" ∧
    (run_track 45 defaultThresholds demoObs).current_activity = "moving" ∧
    (detect_activity_change demoStore 7).1
      = some ⟨7, "stationary", "moving", some 1⟩ ∧
    (detect_activity_change (detect_activity_change demoStore 7).2 7).1
      = some ⟨7, "stationary", "moving", some 1⟩ := by
  have hds : demoStore.tracks = [(7, run_track 45 defaultThresholds demoObs)] :=
    run_store_from_empty 45 defaultThresholds 7 demoObs (by simp [demoObs])
  have hget : getTrack demoStore 7
      = (run_track 45 defaultThresholds demoObs, demoStore) := by
    unfold getTrack
    rw [hds, lookup_singleton]
  have hfst : (detect_activity_change demoStore 7).1
      = some ⟨7, "stationary", "moving", some 1⟩ := by
    rw [detect_activity_change_fst, hget]
    dsimp only
    rw [demo_previous, demo_current, demo_last_seen]
    rw [if_pos (by decide)]
  refine ⟨demo_previous, demo_current, hfst, ?_⟩
  rw [detect_activity_change_snd, hget]
  exact hfst

/-- C4 corrected: when an update causes an activity transition, a first
`detect_activity_change` query returns that transition, and querying again
before the next update for that track returns the same transition again —
the result is idempotent until the next update, not one-shot. -/
theorem change_query_idempotent_until_update (s : Store) (id : ℕ) (o : Obs)
    (tr' : Track) (hlk : ((update s id o).1).tracks.lookup id = some tr')
    (hne : tr'.current_activity ≠ tr'.previous_activity)
    (hnu : tr'.previous_activity ≠ "unknown") :
    (detect_activity_change (update s id o).1 id).1
      = some ⟨id, tr'.previous_activity, tr'.current_activity, tr'.last_seen⟩ ∧
    (detect_activity_change (detect_activity_change (update s id o).1 id).2 id).1
      = (detect_activity_change (update s id o).1 id).1 := by
  have hget : getTrack (update s id o).1 id = (tr', (update s id o).1) := by
    unfold getTrack
    rw [hlk]
  constructor
  · rw [detect_activity_change_fst, hget]
    dsimp only
    rw [if_pos ⟨hne, hnu⟩]
  · rw [detect_activity_change_snd, hget]

/-- The eleven-observation run applies the corrected C4 statement at a
concrete reachable store. -/
theorem change_query_idempotent_until_update_witness :
    (detect_activity_change
        (update (run_store (newStore 45 defaultThresholds) 7
          (List.replicate 10 obsStay)) 7 obsJump).1 7).1
      = some ⟨7, "stationary", "moving", some 1⟩ ∧
    (detect_activity_change
        (detect_activity_change
          (update (run_store (newStore 45 defaultThresholds) 7
            (List.replicate 10 obsStay)) 7 obsJump).1 7).2 7).1
      = (detect_activity_change
          (update (run_store (newStore 45 defaultThresholds) 7
            (List.replicate 10 obsStay)) 7 obsJump).1 7).1 := by
  have hds : demoStore.tracks = [(7, run_track 45 defaultThresholds demoObs)] :=
    run_store_from_empty 45 defaultThresholds 7 demoObs (by simp [demoObs])
  have heq : (update (run_store (newStore 45 defaultThresholds) 7
      (List.replicate 10 obsStay)) 7 obsJump).1 = demoStore := by
    rw [show demoStore = run_store (newStore 45 defaultThresholds) 7 demoObs from rfl,
      show demoObs = List.replicate 10 obsStay ++ [obsJump] from rfl, run_store_snoc]
  have hlk : ((update (run_store (newStore 45 defaultThresholds) 7
      (List.replicate 10 obsStay)) 7 obsJump).1).tracks.lookup 7
      = some (run_track 45 defaultThresholds demoObs) := by
    rw [heq, hds, lookup_singleton]
  have h1 : (run_track 45 defaultThresholds demoObs).current_activity
      ≠ (run_track 45 defaultThresholds demoObs).previous_activity := by
    rw [demo_previous, demo_current]
    decide
  have h2 : (run_track 45 defaultThresholds demoObs).previous_activity ≠ "unknown" := by
    rw [demo_previous]
    decide
  have hmain := change_query_idempotent_until_update
    (run_store (newStore 45 defaultThresholds) 7 (List.replicate 10 obsStay)) 7 obsJump
    (run_track 45 defaultThresholds demoObs) hlk h1 h2
  refine ⟨?_, hmain.2⟩
  rw [hmain.1, demo_previous, demo_current, demo_last_seen]

/-! Read-only behavior of the query functions. -/

theorem get_summary_snd (s : Store) (id : ℕ) :
    (get_summary s id).2 = (getTrack s id).2 := by
  unfold get_summary
  dsimp only
  split <;> rfl

theorem export_track_data_snd (s : Store) (id : ℕ) :
    (export_track_data s id).2 = (getTrack s id).2 := by
  unfold export_track_data
  dsimp only
  split <;> rfl

theorem getTrack_snd_of_isSome (s : Store) (id : ℕ)
    (h : (s.tracks.lookup id).isSome = true) : (getTrack s id).2 = s := by
  unfold getTrack
  rcases hl : s.tracks.lookup id with _ | tr
  · rw [hl] at h
    exact absurd h (by simp)
  · rfl

theorem getTrack_snd_of_none (s : Store) (id : ℕ) (h : s.tracks.lookup id = none) :
    (getTrack s id).2 = { s with tracks := s.tracks ++ [(id, newTrack)] } := by
  unfold getTrack
  rw [h]

/-- C6 counterexample: querying a never-observed track id is not read-only —
on a freshly constructed store each of `get_summary`, `export_track_data`
and `detect_activity_change` inserts a default track state for that id into
the track map, growing it from zero entries to one. -/
theorem query_mutates_on_unseen_cex :
    (get_summary (newStore 45 defaultThresholds) 0).2 ≠ newStore 45 defaultThresholds ∧
    ((get_summary (newStore 45 defaultThresholds) 0).2).tracks.length = 1 ∧
    ((export_track_data (newStore 45 defaultThresholds) 0).2).tracks.length = 1 ∧
    ((detect_activity_change (newStore 45 defaultThresholds) 0).2).tracks.length = 1 ∧
    (newStore 45 defaultThresholds).tracks.length = 0 := by
  have hg : (getTrack (newStore 45 defaultThresholds) 0).2
      = { newStore 45 defaultThresholds with tracks := [(0, newTrack)] } :=
    getTrack_snd_of_none _ _ rfl
  have h1 : ((get_summary (newStore 45 defaultThresholds) 0).2).tracks.length = 1 := by
    rw [get_summary_snd, hg]
    rfl
  refine ⟨?_, h1, ?_, ?_, rfl⟩
  · intro hc
    have := congrArg (fun s : Store => s.tracks.length) hc
    dsimp only at this
    rw [h1] at this
    exact absurd this (by decide)
  · rw [export_track_data_snd, hg]
    rfl
  · rw [detect_activity_change_snd, hg]
    rfl

/-- C6 corrected: the three queries are read-only for every track id already
present in the store; for a never-observed id each of them inserts one fresh
default track state for that id at the end of the track map, leaving every
existing track state and all global counters unchanged. -/
theorem queries_read_only_on_observed (s : Store) (id : ℕ) :
    ((s.tracks.lookup id).isSome = true →
      (get_summary s id).2 = s ∧ (export_track_data s id).2 = s ∧
      (detect_activity_change s id).2 = s) ∧
    (s.tracks.lookup id = none →
      (get_summary s id).2 = { s with tracks := s.tracks ++ [(id, newTrack)] } ∧
      (export_track_data s id).2 = { s with tracks := s.tracks ++ [(id, newTrack)] } ∧
      (detect_activity_change s id).2
        = { s with tracks := s.tracks ++ [(id, newTrack)] }) := by
  constructor
  · intro h
    rw [get_summary_snd, export_track_data_snd, detect_activity_change_snd,
      getTrack_snd_of_isSome s id h]
    exact ⟨rfl, rfl, rfl⟩
  · intro h
    rw [get_summary_snd, export_track_data_snd, detect_activity_change_snd,
      getTrack_snd_of_none s id h]
    exact ⟨rfl, rfl, rfl⟩

/-- The corrected C6 statement applied to a store holding track 3 and to a
fresh store queried for the unseen id 9. -/
theorem queries_read_only_on_observed_witness :
    ((presentStore.tracks.lookup 3).isSome = true ∧
      (get_summary presentStore 3).2 = presentStore ∧
      (export_track_data presentStore 3).2 = presentStore ∧
      (detect_activity_change presentStore 3).2 = presentStore) ∧
    ((newStore 45 defaultThresholds).tracks.lookup 9 = none ∧
      (get_summary (newStore 45 defaultThresholds) 9).2
        = { newStore 45 defaultThresholds with
            tracks := (newStore 45 defaultThresholds).tracks ++ [(9, newTrack)] } ∧
      (export_track_data (newStore 45 defaultThresholds) 9).2
        = { newStore 45 defaultThresholds with
            tracks := (newStore 45 defaultThresholds).tracks ++ [(9, newTrack)] } ∧
      (detect_activity_change (newStore 45 defaultThresholds) 9).2
        = { newStore 45 defaultThresholds with
            tracks := (newStore 45 defaultThresholds).tracks ++ [(9, newTrack)] }) := by
  have h3 : (presentStore.tracks.lookup 3).isSome = true := by
    rw [show presentStore.tracks = [(3, newTrack)] from rfl, lookup_singleton]
    rfl
  have h9 : (newStore 45 defaultThresholds).tracks.lookup 9 = none := rfl
  exact ⟨⟨h3, (queries_read_only_on_observed presentStore 3).1 h3⟩,
    ⟨h9, (queries_read_only_on_observed (newStore 45 defaultThresholds) 9).2 h9⟩⟩

/-! Witness inputs exercised through the claim theorems. -/

theorem drop_replicate (i : ℕ) : ∀ (n : ℕ) (a : α),
    (List.replicate n a).drop i = List.replicate (n - i) a := by
  induction i with
  | zero => intro n a; simp
  | succ i ih =>
      intro n a
      cases n with
      | zero => simp
      | succ n => simp [List.replicate_succ, ih]

theorem classify_sit_eval (t : Track)
    (hts : t.timestamps = List.replicate 10 0)
    (hk : t.keypoints = List.replicate 10 sitKeypoints)
    (hb : t.bboxes = List.replicate 10 unitBox) :
    classify_activity_simple defaultThresholds t 30 = "sitting" := by
  have havg : avgHipRatio t = 67/100 := by
    unfold avgHipRatio
    dsimp only
    rw [hk, hb]
    rw [show lastN 5 (List.replicate 10 sitKeypoints) = List.replicate 5 sitKeypoints from by
      unfold lastN
      rw [List.length_replicate, drop_replicate]]
    rw [show lastN 5 (List.replicate 10 unitBox) = List.replicate 5 unitBox from by
      unfold lastN
      rw [List.length_replicate, drop_replicate]]
    rw [List.zip_replicate']
    have hsome : calculate_hip_ratio sitKeypoints unitBox = some (67/100 : ℚ) := by
      norm_num [calculate_hip_ratio, sitKeypoints, unitBox, get_bbox_height]
    rw [show List.filterMap (fun p : Keypoints × Bbox => calculate_hip_ratio p.1 p.2)
        (List.replicate 5 (sitKeypoints, unitBox)) = List.replicate 5 (67/100 : ℚ) from
      List.filterMap_replicate_of_some (by
        dsimp only
        exact hsome)]
    rw [if_neg (by simp)]
    unfold mean
    rw [List.sum_replicate, List.length_replicate]
    norm_num
  unfold classify_activity_simple
  dsimp only
  rw [havg, hts, speed_zero_of_const_ts t.positions t.bboxes 30 10, hk]
  rw [if_neg (by simp : ¬ (List.replicate 10 sitKeypoints).length = 0)]
  rw [if_pos ⟨by norm_num [defaultThresholds], by norm_num [defaultThresholds]⟩]

/-- The classifier formula applied to a concrete track with ten
keypoint-history entries. -/
theorem classifier_rule_matches_spec_witness :
    10 ≤ c1Track.keypoints.length ∧
    classify_activity_simple defaultThresholds c1Track 30 =
      (let speed := calculate_normalized_speed c1Track.positions c1Track.timestamps
        c1Track.bboxes 30
       let hip_ratios :=
         ((lastN 5 c1Track.keypoints).zip (lastN 5 c1Track.bboxes)).filterMap fun p =>
           calculate_hip_ratio p.1 p.2
       let avg : ℚ := if hip_ratios = [] then 1/2 else hip_ratios.sum / hip_ratios.length
       if avg > defaultThresholds.hip_ratio_sitting ∧
           speed < (defaultThresholds.speed_stationary : ℝ) * 1.5 then
         "sitting"
       else if speed < (defaultThresholds.speed_stationary : ℝ) then "stationary"
       else "moving") := by
  have h : 10 ≤ c1Track.keypoints.length := by
    rw [show c1Track.keypoints = List.replicate 10 noKeypoints from rfl]
    simp
  exact ⟨h, classifier_rule_matches_spec defaultThresholds c1Track h⟩

/-- The fall-detector formula applied to a fresh track, and the gating of the
fall state through one update on a short keypoint history. -/
theorem fall_detector_matches_spec_witness :
    (detect_fall_simple defaultThresholds newTrack 15 =
      (if newTrack.keypoints.length < 15 then false
       else
         let heights :=
           ((lastN 15 newTrack.keypoints).zip (lastN 15 newTrack.bboxes)).filterMap
             fun p : Keypoints × Bbox =>
               match p.1.nose, p.1.left_ankle, p.1.right_ankle with
               | some nose, some la, some ra =>
                   if 0 < get_bbox_height p.2 then
                     some (|(la.2 + ra.2) / 2 - nose.2| / get_bbox_height p.2)
                   else none
               | _, _, _ => none
         if heights.length < 5 then false
         else
           let startH := (heights.take 3).sum / 3
           let endH := (lastN 3 heights).sum / 3
           let dropRatio := if startH ≤ 0 then 0 else (startH - endH) / startH
           let dt := (lastN 15 newTrack.timestamps).getLast?.getD 0
                       - (lastN 15 newTrack.timestamps).head?.getD 0
           decide (dropRatio > defaultThresholds.fall_drop_ratio ∧
             dt < defaultThresholds.fall_time_threshold))) ∧
    ((appendBounded 45 newTrack.keypoints obsStay.keypoints).length < 15 ∧
     (update_track 45 defaultThresholds newTrack obsStay).stats.fall_detected
        = newTrack.stats.fall_detected ∧
     (update_track 45 defaultThresholds newTrack obsStay).stats.fall_timestamp
        = newTrack.stats.fall_timestamp) := by
  have hs : (appendBounded 45 newTrack.keypoints obsStay.keypoints).length < 15 := by
    rw [appendBounded_length, show newTrack.keypoints = ([] : List Keypoints) from rfl]
    simp
  exact ⟨(fall_detector_matches_spec defaultThresholds).1 newTrack,
    hs, (fall_detector_matches_spec defaultThresholds).2 45 newTrack obsStay hs⟩

/-- The unknown-label claim applied to the empty run and one concrete
update on a moving-labelled track. -/
theorem unknown_until_ten_then_never_witness :
    ((run_track 45 defaultThresholds []).positions.length < 10 ∧
     (run_track 45 defaultThresholds []).current_activity = "unknown") ∧
    (movTrack.current_activity ≠ "unknown" ∧
     (update_track 45 defaultThresholds movTrack obsStay).current_activity
        ≠ "unknown") := by
  have ha : (run_track 45 defaultThresholds []).positions.length < 10 := by
    rw [run_track_nil, show newTrack.positions = ([] : List (ℚ × ℚ)) from rfl]
    simp
  have hb : movTrack.current_activity ≠ "unknown" := by
    rw [show movTrack.current_activity = "moving" from rfl]
    decide
  exact ⟨⟨ha, (unknown_until_ten_then_never 45 defaultThresholds).1 [] ha⟩,
    hb, (unknown_until_ten_then_never 45 defaultThresholds).2 movTrack obsStay hb⟩

/-- The sticky-fall claim applied to a track whose flag is already latched,
the empty run, and one store-level update. -/
theorem fall_flag_sticky_witness :
    (fallTrack.stats.fall_detected = true ∧
     (update_track 45 defaultThresholds fallTrack obsStay).stats.fall_detected = true ∧
     (update_track 45 defaultThresholds fallTrack obsStay).stats.fall_timestamp
        = fallTrack.stats.fall_timestamp) ∧
    (run_track_from 45 defaultThresholds fallTrack [obsStay]).stats.fall_detected
        = true ∧
    (summarize 0 fallTrack).fall_detected = fallTrack.stats.fall_detected ∧
    (fall_increments 45 defaultThresholds newTrack [] =
      if (run_track 45 defaultThresholds []).stats.fall_detected = true then 1 else 0) ∧
    ((update (newStore 45 defaultThresholds) 0 obsStay).1).global_stats.total_falls_detected
      = (newStore 45 defaultThresholds).global_stats.total_falls_detected
        + (if (update_track_full (newStore 45 defaultThresholds).history_frames
              (newStore 45 defaultThresholds).thresholds
              (getTrack (newStore 45 defaultThresholds) 0).1 obsStay).newFall
           then 1 else 0) := by
  have hf : fallTrack.stats.fall_detected = true := rfl
  obtain ⟨c1, c2, c3, c4, c5⟩ := fall_flag_sticky 45 defaultThresholds
  exact ⟨⟨hf, (c1 fallTrack obsStay hf).1, (c1 fallTrack obsStay hf).2⟩,
    c2 fallTrack [obsStay] hf, c3 0 fallTrack, c4 [],
    c5 (newStore 45 defaultThresholds) 0 obsStay⟩

/-- The frame-counter claim applied to a one-observation run and to a
concrete sitting-classified update. -/
theorem frame_counters_overlap_witness :
    ((2 : ℕ) ≤ 45 ∧ 1 ≤ ([obsStay] : List Obs).length ∧
     (run_track 45 defaultThresholds [obsStay]).stats.frames_stationary
       + (run_track 45 defaultThresholds [obsStay]).stats.frames_moving
       = ([obsStay] : List Obs).length - 1) ∧
    ((update_track 45 defaultThresholds sitTrack obsSit).stats.frames_sitting
       = sitTrack.stats.frames_sitting + 1 ∧
     (update_track 45 defaultThresholds sitTrack obsSit).stats.frames_stationary
       + (update_track 45 defaultThresholds sitTrack obsSit).stats.frames_moving
       = sitTrack.stats.frames_stationary + sitTrack.stats.frames_moving + 1) := by
  have hH : (2 : ℕ) ≤ 45 := by norm_num
  have hlen : 10 ≤ (appendBounded 45 sitTrack.positions (get_bbox_center obsSit.bbox)).length := by
    rw [appendBounded_length,
      show sitTrack.positions = List.replicate 9 ((1/2 : ℚ), (1/2 : ℚ)) from rfl]
    simp
  have hclass : classify_activity_simple defaultThresholds
      (accumulate_speed_stats defaultThresholds (append_raw 45 sitTrack obsSit)) 30
      = "sitting" := by
    apply classify_sit_eval
    · rw [accumulate_speed_stats_timestamps, append_raw_timestamps,
        show sitTrack.timestamps = List.replicate 9 (0 : ℚ) from rfl,
        appendBounded_of_le _ _ _ (by simp),
        show obsSit.timestamp = (0 : ℚ) from rfl, ← List.replicate_succ']
    · rw [accumulate_speed_stats_keypoints, append_raw_keypoints,
        show sitTrack.keypoints = List.replicate 9 sitKeypoints from rfl,
        appendBounded_of_le _ _ _ (by simp),
        show obsSit.keypoints = sitKeypoints from rfl, ← List.replicate_succ']
    · rw [accumulate_speed_stats_bboxes, append_raw_bboxes,
        show sitTrack.bboxes = List.replicate 9 unitBox from rfl,
        appendBounded_of_le _ _ _ (by simp),
        show obsSit.bbox = unitBox from rfl, ← List.replicate_succ']
  have hsit : (update_track 45 defaultThresholds sitTrack obsSit).stats.frames_sitting
      = sitTrack.stats.frames_sitting + 1 := by
    rw [update_track_sitting, if_pos ⟨hlen, hclass⟩]
  obtain ⟨c1, c2⟩ := frame_counters_overlap 45 defaultThresholds hH
  exact ⟨⟨hH, by simp, c1 [obsStay] (by simp)⟩, hsit, c2 sitTrack obsSit hsit⟩

end HAR
